import Mathlib

/-!
Verification of the notion-todoist-sync repository core: a shallow embedding of
the bidirectional sync engine (`sync/bidirectional_sync.py`), the conflict
resolver (`sync/conflict_resolver.py`), the sync-state store
(`sync/state/sync_state_repository.py`), the bidirectional field mapper
(`mappers/bidirectional_field_mapper.py`), the task models (`models/task.py`)
and the orchestrator event dispatch (`sync/orchestrator.py`).

Modelling conventions, used consistently below:
* ISO-8601 timestamp strings are modelled by the instants they denote, as
  integers (`Timestamp := Int`).  `datetime.fromisoformat` on a value written
  by `datetime('now')` or by the external APIs always succeeds, and the
  timezone-normalisation performed before comparison preserves the order of
  instants, so the parse-failure branches of `_changed_since_last_sync`
  collapse; `str(dt)` is modelled by `toString` (injective on instants).
* Python `dict`s with dynamic string keys are association lists with
  first-position-preserving overwrite (`fset`), exactly like `dict` insertion.
* Python exceptions are `Except PyErr`; an attribute access on an object that
  does not define the attribute is `Except.error PyErr.attributeError`.
* Collaborator calls (the Notion/Todoist HTTP clients) are an oracle record
  (`Collab`); every call made by the engine is additionally logged in an event
  trace (`Ev`, with a flag recording whether the call raised), so "the engine
  issued no write" is a statement about the trace.
* `print` calls and the orchestrator statistics counters are omitted: they do
  not influence control flow or state.
-/

namespace NotionTodoistSync

/-- Python exception classes that the modelled code can raise. -/
inductive PyErr where
  | attributeError
  | valueError
  | typeError
  | keyError
  | apiError
deriving DecidableEq, Repr

/-- Instants denoted by ISO-8601 timestamp strings. -/
abbrev Timestamp := Int

/-- Decidable equality for `Except`, used to evaluate concrete runs. -/
instance exceptDecEq {ε α : Type} [DecidableEq ε] [DecidableEq α] :
    DecidableEq (Except ε α) := fun a b =>
  match a, b with
  | .ok x, .ok y =>
    if h : x = y then isTrue (by rw [h]) else isFalse (fun hc => h (by cases hc; rfl))
  | .error x, .error y =>
    if h : x = y then isTrue (by rw [h]) else isFalse (fun hc => h (by cases hc; rfl))
  | .ok _, .error _ => isFalse (fun hc => by cases hc)
  | .error _, .ok _ => isFalse (fun hc => by cases hc)

/-- Python substring test `needle in hay` for a non-empty needle. -/
def strContains (hay needle : String) : Bool :=
  (hay.splitOn needle).length > 1

/-- Digit-string value; `none` when a non-digit occurs.  Empty list yields `some 0`,
callers guard non-emptiness. -/
def digitsVal (cs : List Char) : Option Nat :=
  cs.foldl
    (fun acc c =>
      match acc with
      | none => none
      | some n => if c.isDigit then some (n * 10 + (c.toNat - 48)) else none)
    (some 0)

/-- Python `int(s)` for a string: optional surrounding whitespace, optional
sign, then decimal digits; `none` models the `ValueError` case. -/
def pyIntOfString (s : String) : Option Int :=
  let t := ((s.data.dropWhile (fun c => c.isWhitespace)).reverse.dropWhile
    (fun c => c.isWhitespace)).reverse
  match t with
  | [] => none
  | c :: rest =>
    if c = '-' then
      match rest with
      | [] => none
      | _ => (digitsVal rest).map (fun n => -(n : Int))
    else if c = '+' then
      match rest with
      | [] => none
      | _ => (digitsVal rest).map (fun n => (n : Int))
    else (digitsVal t).map (fun n => (n : Int))

/-- `datetime.strptime(s, "%Y-%m-%d")`, modelled at shape level: four digit
year, two digit month, two digit day separated by dashes.  `none` models the
`ValueError` case. -/
def parseYmd (s : String) : Option String :=
  match s.splitOn "-" with
  | [y, m, d] =>
    if y.length = 4 && m.length = 2 && d.length = 2
        && y.data.all (·.isDigit) && m.data.all (·.isDigit) && d.data.all (·.isDigit) then
      some s
    else none
  | _ => none

/-- Python truthiness of an `Optional[str]`: collapse `None` and `""` to `none`. -/
def truthyOptStr : Option String → Option String
  | none => none
  | some s => if s.isEmpty then none else some s

/-- A value stored in a Todoist-fields `dict` (`Dict[str, Any]`): the code
only ever stores strings, ints (priority), lists of strings (labels) and
`datetime.date` objects (carrying their ISO form here). -/
inductive TodoistVal where
  | vStr (s : String)
  | vInt (n : Int)
  | vList (xs : List String)
  | vDate (s : String)
deriving DecidableEq, Repr

/-- Python `str(value)` on the values above (list rendering approximated;
the code only applies `str` to strings in practice). -/
def pyStr : TodoistVal → String
  | .vStr s => s
  | .vInt n => toString n
  | .vDate s => s
  | .vList xs => String.intercalate ", " xs

/-- Python truthiness of a `TodoistVal`. -/
def pyTruthyVal : TodoistVal → Bool
  | .vStr s => !s.isEmpty
  | .vInt n => decide (n ≠ 0)
  | .vDate _ => true
  | .vList xs => !xs.isEmpty

/-- A `Dict[str, Any]` of Todoist fields, as an insertion-ordered association list. -/
abbrev TodoistFields := List (String × TodoistVal)

/-- `d.get(k)`. -/
def fget (fs : TodoistFields) (k : String) : Option TodoistVal :=
  (fs.find? (fun p => p.1 = k)).map (fun p => p.2)

/-- `k in d`. -/
def fcontains (fs : TodoistFields) (k : String) : Bool :=
  (fget fs k).isSome

/-- `d[k] = v`: overwrite in place, or append a new key (dict insertion order). -/
def fset (fs : TodoistFields) (k : String) (v : TodoistVal) : TodoistFields :=
  if fcontains fs k then
    fs.map (fun p => if p.1 = k then (p.1, v) else p)
  else fs ++ [(k, v)]

/-- `d.pop(k, None)` (the resulting dict). -/
def fremove (fs : TodoistFields) (k : String) : TodoistFields :=
  fs.filter (fun p => p.1 ≠ k)

/-- Python `x in v` for a label against a fields value: list membership, or
substring test on a string; anything else raises `TypeError`. -/
def pyInCheck (x : String) (v : TodoistVal) : Except PyErr Bool :=
  match v with
  | .vList xs => .ok (xs.contains x)
  | .vStr s => .ok (strContains s x)
  | _ => .error .typeError

/-- Python `v.append(x)`: only lists have `append`; anything else raises
`AttributeError`. -/
def pyAppend (v : TodoistVal) (x : String) : Except PyErr TodoistVal :=
  match v with
  | .vList xs => .ok (.vList (xs ++ [x]))
  | _ => .error .attributeError

/-- A Notion property value (`models/task.py`, `bidirectional_field_mapper.py`
dispatch on `value["type"]`): the closed set of property types the code
handles.  `none` inside `select`/`date`/`status`/`number` models a JSON null. -/
inductive NotionValue where
  | title (texts : List String)
  | richText (texts : List String)
  | select (name : Option String)
  | multiSelect (names : List String)
  | date (start : Option String)
  | status (name : Option String)
  | checkbox (b : Bool)
  | number (n : Option Int)
  | relation (ids : List String)
deriving DecidableEq, Repr

/-- A Notion page's `properties` dict. -/
abbrev NotionProps := List (String × NotionValue)

/-- `props.get(k)`. -/
def pget (ps : NotionProps) (k : String) : Option NotionValue :=
  (ps.find? (fun p => p.1 = k)).map (fun p => p.2)

/-- A raw Notion page, as returned by `NotionRepository.get_page`. -/
structure NotionPage where
  id : String
  last_edited_time : Option Timestamp
  created_time : Option Timestamp
  properties : NotionProps
deriving DecidableEq, Repr

/-- The `TodoistTask` dataclass of `models/task.py`.  Note that the dataclass
defines **no** `is_recurring` and **no** `due_datetime` field. -/
structure TodoistTask where
  id : String
  content : String
  description : Option String
  due_date : Option String
  priority : Int
  project_id : Option String
  labels : List String
  parent_id : Option String
  is_completed : Bool
  created_at : Option Timestamp
  due_string : Option String
deriving DecidableEq, Repr

/-- Python attribute access `task.is_recurring`.  The `TodoistTask` dataclass
(`models/task.py` lines 74-151) defines no such field and no `__getattr__`,
so the access raises `AttributeError`. -/
def TodoistTask.is_recurring (_ : TodoistTask) : Except PyErr Bool :=
  .error .attributeError

/-- Python attribute access `task.due_datetime`: likewise not a field of the
`TodoistTask` dataclass, so it raises `AttributeError`. -/
def TodoistTask.due_datetime (_ : TodoistTask) : Except PyErr (Option String) :=
  .error .attributeError

/-- The `NotionTask` dataclass of `models/task.py`. -/
structure NotionTask where
  id : String
  title : String
  description : Option String
  due_date : Option String
  priority : Option Int
  project : Option String
  labels : List String
  parent_id : Option String
  is_completed : Bool
  last_edited_time : Option Timestamp
  created_time : Option Timestamp
  properties : NotionProps
deriving DecidableEq, Repr

/-- `NotionTask.from_dict(data, field_mapping)` (`models/task.py` lines 23-62):
title extraction tries `properties[list(field_mapping.values())[0]]` first
(note: the *Todoist*-side name of the first mapping entry), else scans for the
first non-empty title property; completion looks up the literal key
`"completion_field"` in the field mapping. -/
def notion_task_from_dict (data : NotionPage) (field_mapping : List (String × String)) :
    NotionTask :=
  let title_prop : Option NotionValue :=
    match field_mapping with
    | [] => none
    | p :: _ => pget data.properties p.2
  let title : String :=
    match title_prop with
    | none =>
      (data.properties.findSome? (fun pv =>
        match pv.2 with
        | .title (t :: _) => some t
        | _ => none)).getD ""
    | some tp =>
      match tp with
      | .title (t :: _) => t
      | _ => ""
  let is_completed : Bool :=
    match (field_mapping.find? (fun p => p.1 = "completion_field")).map (fun p => p.2) with
    | some cf_name =>
      match pget data.properties cf_name with
      | some (.status (some nm)) => nm = "Done"
      | _ => false
    | none => false
  { id := data.id
    title := title
    description := none
    due_date := none
    priority := none
    project := none
    labels := []
    parent_id := none
    is_completed := is_completed
    last_edited_time := data.last_edited_time
    created_time := data.created_time
    properties := data.properties }

/-- `completion_field` configuration entry (`config/configuration.py`):
`{"name": ..., "done_value": ...}`; absent/empty dict is `none`. -/
structure CompletionField where
  name : String
  done_value : String
deriving DecidableEq, Repr

/-- `parent_task_field` configuration entry; `title_field` carries the
resolved `.get("title_field", "Name")` value. -/
structure ParentTaskField where
  create_parent : Bool
  name : Option String
  title_field : String
deriving DecidableEq, Repr

/-- One entry of `description_fields["fields"]`: `{"name": ..., "format": ...}`. -/
structure DescriptionFieldCfg where
  name : String
  fmt : String
deriving DecidableEq, Repr

/-- The slice of `Configuration` that the modelled components read. -/
structure Configuration where
  field_mapping : List (String × String)
  completion_field : Option CompletionField
  parent_task_field : Option ParentTaskField
  description_enabled : Bool
  description_fields : List DescriptionFieldCfg
  description_separator : String
  sync_deletions : Bool
deriving DecidableEq, Repr

/-! ## Field mapper (`mappers/bidirectional_field_mapper.py`) -/

namespace BidirectionalFieldMapper

/-- A second-level Python scalar, input of `_reverse_map_priority` (typed `Any`
in the source; callers pass the task's integer priority, but the function is
also claimed to handle strings). -/
inductive PyScalar where
  | pint (n : Int)
  | pstr (s : String)
deriving DecidableEq, Repr

/-- Python `int(x)` on a scalar: identity on ints, parse on strings
(`ValueError` when unparsable). -/
def pyScalarInt : PyScalar → Except PyErr Int
  | .pint n => .ok n
  | .pstr s =>
    match pyIntOfString s with
    | some n => .ok n
    | none => .error .valueError

/-- `_map_priority` (lines 128-139): `int()` the select-option name inside
`try`, map through `{1:4, 2:3, 3:2, 4:1}` with default `1`; any
`ValueError`/`TypeError` also yields `1`. -/
def map_priority (priority_value : String) : Int :=
  match pyIntOfString priority_value with
  | none => 1
  | some notion_priority =>
    if notion_priority = 1 then 4
    else if notion_priority = 2 then 3
    else if notion_priority = 3 then 2
    else if notion_priority = 4 then 1
    else 1

/-- `_reverse_map_priority` (lines 141-147): `int(todoist_priority)` is *not*
wrapped in `try`, so an unparsable string raises `ValueError`; integers map
through `{4:1, 3:2, 2:3, 1:4}` with default `4`, then `str(...)`. -/
def reverse_map_priority (todoist_priority : PyScalar) : Except PyErr String := do
  let n ← pyScalarInt todoist_priority
  let notion_priority : Int :=
    if n = 4 then 1
    else if n = 3 then 2
    else if n = 2 then 3
    else if n = 1 then 4
    else 4
  pure (toString notion_priority)

/-- `_map_notion_field_value` (lines 72-99): one extraction rule per property
type; empty/null values and unsupported types map to `None`. -/
def map_notion_field_value (value : NotionValue) (todoist_field : String) :
    Option TodoistVal :=
  match value with
  | .title texts =>
    match texts with
    | [] => none
    | t :: _ => some (.vStr t)
  | .date start => start.map (fun s => .vStr s)
  | .select name =>
    match name with
    | none => none
    | some nm =>
      if todoist_field = "priority" then some (.vInt (map_priority nm))
      else some (.vStr nm)
  | .richText texts =>
    match texts with
    | [] => none
    | t :: _ => some (.vStr t)
  | .multiSelect names =>
    match names with
    | [] => none
    | _ => some (.vList names)
  | _ => none

/-- `_extract_field_content` (lines 174-191): text rendering of a property for
the description block; `number None` renders as `""` (later skipped by
truthiness), unsupported types yield `None`. -/
def extract_field_content (value : NotionValue) : Option String :=
  match value with
  | .richText (t :: _) => some t
  | .select (some nm) => some nm
  | .multiSelect names =>
    match names with
    | [] => none
    | _ => some (String.intercalate ", " names)
  | .date (some s) => some s
  | .checkbox b => some (if b then "Yes" else "No")
  | .number n =>
    match n with
    | some v => some (toString v)
    | none => some ""
  | _ => none

/-- `_build_description` (lines 149-172): when enabled, extract each
configured field, skip falsy content, apply the per-field format template
(`format.format(value=...)` modelled as template substitution), join with the
separator. -/
def build_description (cfg : Configuration) (props : NotionProps) : Option String :=
  if !cfg.description_enabled then none
  else
    let parts : List String :=
      cfg.description_fields.foldl
        (fun acc fc =>
          match pget props fc.name with
          | none => acc
          | some value =>
            match extract_field_content value with
            | none => acc
            | some content =>
              if content.isEmpty then acc
              else acc ++ [fc.fmt.replace "\x7bvalue\x7d" content])
        []
    match parts with
    | [] => none
    | _ => some (String.intercalate cfg.description_separator parts)

/-- `map_notion_to_todoist` (lines 27-47): fold the declarative field mapping
over the page's properties, then add the synthesized description. -/
def map_notion_to_todoist (cfg : Configuration) (page : NotionPage) : TodoistFields :=
  let base : TodoistFields :=
    cfg.field_mapping.foldl
      (fun fs nf_tf =>
        match pget page.properties nf_tf.1 with
        | none => fs
        | some value =>
          match map_notion_field_value value nf_tf.2 with
          | none => fs
          | some v => fset fs nf_tf.2 v)
      []
  match build_description cfg page.properties with
  | none => base
  | some d => fset base "description" (.vStr d)

/-- `is_task_completed` (lines 193-207): status-name equality against the
configured done value.  A present status *property* whose status *value* is
null hits `current_status["status"]["name"]` unguarded and raises
`TypeError`. -/
def is_task_completed (cfg : Configuration) (page : NotionPage) : Except PyErr Bool :=
  match cfg.completion_field with
  | none => .ok false
  | some cf =>
    match pget page.properties cf.name with
    | some (.status st) =>
      match st with
      | some nm => .ok (nm = cf.done_value)
      | none => .error .typeError
    | some _ => .ok false
    | none => .ok false

/-- `_build_reverse_mapping` (lines 20-25): invert `{notion: todoist}` with
dict overwrite semantics (later duplicate Todoist fields overwrite the value,
keeping first insertion position). -/
def build_reverse_mapping (fm : List (String × String)) : List (String × String) :=
  fm.foldl
    (fun acc p =>
      if (acc.find? (fun q => q.1 = p.2)).isSome then
        acc.map (fun q => if q.1 = p.2 then (q.1, p.1) else q)
      else acc ++ [(p.2, p.1)])
    []

/-- `_map_todoist_field_value` (lines 101-126).  The `"due_date"` arm reads
`todoist_task.due_datetime`, which the dataclass does not define, so it raises
`AttributeError`. -/
def map_todoist_field_value (t : TodoistTask) (todoist_field : String) :
    Except PyErr (Option TodoistVal) :=
  if todoist_field = "content" then .ok (some (.vStr t.content))
  else if todoist_field = "description" then .ok (t.description.map (fun s => .vStr s))
  else if todoist_field = "due_date" then do
    let dd ← t.due_datetime
    pure ((dd.orElse (fun _ => t.due_date)).map (fun s => .vStr s))
  else if todoist_field = "due_string" then .ok (t.due_string.map (fun s => .vStr s))
  else if todoist_field = "priority" then do
    let s ← reverse_map_priority (.pint t.priority)
    pure (some (.vStr s))
  else if todoist_field = "labels" then .ok (some (.vList t.labels))
  else .ok none

/-- `map_todoist_to_notion` (lines 49-70): content to title, then the reverse
mapping (skipping a Notion field literally named `"title"`), then the
description.  Its result is computed but unused by the engine; it is modelled
because it can raise. -/
def map_todoist_to_notion (cfg : Configuration) (t : TodoistTask) :
    Except PyErr (List (String × TodoistVal)) := do
  let base : List (String × TodoistVal) :=
    if !t.content.isEmpty then [("title", .vStr t.content)] else []
  let withMapped ←
    (build_reverse_mapping cfg.field_mapping).foldlM
      (fun acc tf_nf => do
        if tf_nf.2 = "title" then pure acc
        else do
          let mv ← map_todoist_field_value t tf_nf.1
          match mv with
          | none => pure acc
          | some v => pure (acc ++ [(tf_nf.2, v)]))
      base
  match t.description with
  | some d =>
    if !d.isEmpty then pure (withMapped ++ [("description", .vStr d)])
    else pure withMapped
  | none => pure withMapped

/-- A Notion property payload built for an API call
(`NotionRepository.build_*_property`). -/
inductive NotionBuiltProp where
  | titleProp (text : String)
  | richTextProp (text : String)
  | selectProp (name : String)
  | multiSelectProp (names : List String)
  | dateProp (start : String)
  | statusProp (name : String)
deriving DecidableEq, Repr

/-- `_build_notion_property` (lines 226-241): choose the payload constructor
from the Todoist-side field name; non-list `labels` values build nothing. -/
def build_notion_property (todoist_field : String) (value : TodoistVal) :
    Option NotionBuiltProp :=
  if todoist_field = "content" then some (.titleProp (pyStr value))
  else if todoist_field = "due_date" then some (.dateProp (pyStr value))
  else if todoist_field = "due_string" then some (.richTextProp (pyStr value))
  else if todoist_field = "priority" then some (.selectProp (pyStr value))
  else if todoist_field = "project" then some (.selectProp (pyStr value))
  else if todoist_field = "labels" then
    match value with
    | .vList xs => some (.multiSelectProp xs)
    | _ => none
  else none

/-- `build_notion_properties` (lines 209-224): fold the reverse mapping,
skipping `None` values and unbuildable payloads. -/
def build_notion_properties (cfg : Configuration) (t : TodoistTask) :
    Except PyErr (List (String × NotionBuiltProp)) :=
  (build_reverse_mapping cfg.field_mapping).foldlM
    (fun props tf_nf => do
      let mv ← map_todoist_field_value t tf_nf.1
      match mv with
      | none => pure props
      | some value =>
        match build_notion_property tf_nf.1 value with
        | none => pure props
        | some p => pure (props ++ [(tf_nf.2, p)]))
    []

end BidirectionalFieldMapper

/-! ## Sync-state store (`sync/state/sync_state_repository.py`)

The SQLite table `sync_states`, keyed by `notion_id`, is a list of rows; the
`datetime('now')` the SQL statements read is the `now` argument threaded in by
the caller.  The `notion_last_edited` / `todoist_last_edited` TEXT columns are
write-only for the logic, so they stay `Option String`. -/

structure SyncStateRow where
  notion_id : String
  todoist_id : String
  notion_last_edited : Option String
  todoist_last_edited : Option String
  last_synced_at : Timestamp
  last_sync_direction : Option String
  conflict_count : Int
  created_at : Timestamp
deriving DecidableEq, Repr

namespace SyncStateRepository

/-- `get_by_notion_id` (lines 55-66). -/
def get_by_notion_id (db : List SyncStateRow) (nid : String) : Option SyncStateRow :=
  db.find? (fun r => r.notion_id = nid)

/-- `upsert` (lines 81-103): single atomic insert-or-update keyed by
`notion_id`; the update arm rewrites `todoist_id`, both last-edited columns,
`last_synced_at = datetime('now')` and the direction, preserving
`conflict_count` and `created_at`; the insert arm defaults `conflict_count`
to `0` and `created_at` to now. -/
def upsert (db : List SyncStateRow) (now : Timestamp) (notion_id todoist_id : String)
    (notion_last_edited todoist_last_edited : Option String) (sync_direction : String) :
    List SyncStateRow :=
  if (db.find? (fun r => r.notion_id = notion_id)).isSome then
    db.map (fun r =>
      if r.notion_id = notion_id then
        { r with
          todoist_id := todoist_id
          notion_last_edited := notion_last_edited
          todoist_last_edited := todoist_last_edited
          last_synced_at := now
          last_sync_direction := some sync_direction }
      else r)
  else
    db ++ [{ notion_id := notion_id
             todoist_id := todoist_id
             notion_last_edited := notion_last_edited
             todoist_last_edited := todoist_last_edited
             last_synced_at := now
             last_sync_direction := some sync_direction
             conflict_count := 0
             created_at := now }]

/-- `update_timestamps` (lines 105-125): each of the two UPDATE statements
runs only when its argument is truthy (so `None` *and* `""` are skipped), and
each also resets `last_synced_at = datetime('now')` on the matching row. -/
def update_timestamps (db : List SyncStateRow) (now : Timestamp) (notion_id : String)
    (notion_last_edited todoist_last_edited : Option String) : List SyncStateRow :=
  let db1 :=
    match truthyOptStr notion_last_edited with
    | some _ =>
      db.map (fun r =>
        if r.notion_id = notion_id then
          { r with notion_last_edited := notion_last_edited, last_synced_at := now }
        else r)
    | none => db
  match truthyOptStr todoist_last_edited with
  | some _ =>
    db1.map (fun r =>
      if r.notion_id = notion_id then
        { r with todoist_last_edited := todoist_last_edited, last_synced_at := now }
      else r)
  | none => db1

/-- `increment_conflict_count` (lines 127-135). -/
def increment_conflict_count (db : List SyncStateRow) (notion_id : String) :
    List SyncStateRow :=
  db.map (fun r =>
    if r.notion_id = notion_id then { r with conflict_count := r.conflict_count + 1 }
    else r)

/-- `delete` (lines 137-144). -/
def delete (db : List SyncStateRow) (notion_id : String) : List SyncStateRow :=
  db.filter (fun r => r.notion_id ≠ notion_id)

end SyncStateRepository

/-! ## Conflict resolver (`sync/conflict_resolver.py`) -/

/-- `ConflictResolutionStrategy` (`Literal` in the source). -/
inductive ConflictResolutionStrategy where
  | last_modified_wins
  | notion_wins
  | todoist_wins
  | merge
deriving DecidableEq, Repr

namespace ConflictResolver

/-- `_changed_since_last_sync` (lines 113-131): a side changed iff its
last-modified instant is known and strictly after the last-sync instant.  The
`last_sync` string is always a well-formed timestamp (written by
`datetime('now')`), so the `ValueError` branch collapses; timezone
normalisation preserves the order of instants. -/
def changed_since_last_sync (last_modified : Option Timestamp) (last_sync : Timestamp) :
    Bool :=
  match last_modified with
  | none => false
  | some t => decide (t > last_sync)

/-- The fallback comparison's Notion-side timestamp:
`notion_task.last_edited_time or notion_task.created_time`. -/
def notion_best_time (n : NotionTask) : Option Timestamp :=
  n.last_edited_time.orElse (fun _ => n.created_time)

/-- The direct timestamp comparison of `_last_modified_wins` (lines 62-78),
reached when the changed-since-last-sync check does not decide. -/
def direct_time_comparison (notion_task : NotionTask) (todoist_task : TodoistTask) :
    Bool × String :=
  match notion_best_time notion_task with
  | none => (false, "Notion timestamp unavailable, Todoist wins")
  | some nt =>
    match todoist_task.created_at with
    | none => (true, "Todoist timestamp unavailable, Notion wins")
    | some tt =>
      if nt > tt then (true, "Notion modified more recently")
      else if tt > nt then (false, "Todoist modified more recently")
      else (true, "Timestamps equal, preferring Notion")

/-- `_last_modified_wins` (lines 43-78).  Reason strings are kept as the fixed
prefixes of the source's messages (the source interpolates timestamps into
some of them). -/
def last_modified_wins (notion_task : NotionTask) (todoist_task : TodoistTask)
    (sync_state : Option SyncStateRow) : Bool × String :=
  match sync_state with
  | none => direct_time_comparison notion_task todoist_task
  | some st =>
    let notion_changed := changed_since_last_sync notion_task.last_edited_time st.last_synced_at
    let todoist_changed := changed_since_last_sync todoist_task.created_at st.last_synced_at
    if !notion_changed && todoist_changed then (false, "Only Todoist changed since last sync")
    else if notion_changed && !todoist_changed then (true, "Only Notion changed since last sync")
    else direct_time_comparison notion_task todoist_task

/-- `_merge_strategy` (lines 80-111): base-selection heuristic.  Python
truthiness on the priorities (`0`/`None` falsy) is preserved. -/
def merge_strategy (notion_task : NotionTask) (todoist_task : TodoistTask) : Bool × String :=
  if notion_task.is_completed != todoist_task.is_completed then
    (true, "Preferring Notion completion status")
  else
    let dueDecision : Option (Bool × String) :=
      match notion_task.due_date, todoist_task.due_date with
      | some nd, some td =>
        if !nd.isEmpty && !td.isEmpty && nd ≠ td then some (true, "Preferring Notion due date")
        else none
      | _, _ => none
    match dueDecision with
    | some d => d
    | none =>
      let prioDecision : Option (Bool × String) :=
        match notion_task.priority with
        | some np =>
          if np ≠ 0 && todoist_task.priority ≠ 0 && np ≠ todoist_task.priority then
            if np < todoist_task.priority then some (true, "Notion has higher priority")
            else some (false, "Todoist has higher priority")
          else none
        | none => none
      match prioDecision with
      | some d => d
      | none => (true, "Using Notion as base for merge")

/-- `resolve` (lines 17-41): strategy dispatch; the default falls through to
`_last_modified_wins`. -/
def resolve (strategy : ConflictResolutionStrategy) (notion_task : NotionTask)
    (todoist_task : TodoistTask) (sync_state : Option SyncStateRow) : Bool × String :=
  match strategy with
  | .notion_wins => (true, "Configured to always prefer Notion")
  | .todoist_wins => (false, "Configured to always prefer Todoist")
  | .merge => merge_strategy notion_task todoist_task
  | .last_modified_wins => last_modified_wins notion_task todoist_task sync_state

end ConflictResolver

/-! ## Bidirectional sync engine (`sync/bidirectional_sync.py`)

Collaborator calls are an oracle (`Collab`); each call the engine makes is
logged as an event (`Ev`) carrying a flag for whether that call raised.  The
only shared mutable state is the sync-state table and the trace, threaded as
`EngState`.  The body of each entry point returns `Except PyErr`; the public
entry point wraps it in the source's top-level `try/except` which converts
any escaped exception into a `None` result. -/

/-- One collaborator call made by the engine or orchestrator, with a flag
recording whether the call raised. -/
inductive Ev where
  | evGetPage (page_id : String) (raised : Bool)
  | evGetTask (task_id : String) (raised : Bool)
  | evGetComments (task_id : String) (raised : Bool)
  | evQueryChildTasks (parent_id : String) (exclude_completed : Bool) (raised : Bool)
  | evCreateTask (fields : TodoistFields) (raised : Bool)
  | evAddComment (task_id : String) (text : String) (raised : Bool)
  | evCompleteTask (task_id : String) (raised : Bool)
  | evReopenTask (task_id : String) (raised : Bool)
  | evUpdateTask (task_id : String) (fields : TodoistFields) (raised : Bool)
  | evMoveTask (task_id : String) (parent_id : String) (raised : Bool)
  | evDeleteTask (task_id : String) (raised : Bool)
  | evUpdatePage (page_id : String)
      (props : List (String × BidirectionalFieldMapper.NotionBuiltProp)) (raised : Bool)
  | evArchivePage (page_id : String) (raised : Bool)
deriving DecidableEq, Repr

/-- Events that write to the Todoist side. -/
def Ev.isTodoistWrite : Ev → Bool
  | .evCreateTask _ _ => true
  | .evAddComment _ _ _ => true
  | .evCompleteTask _ _ => true
  | .evReopenTask _ _ => true
  | .evUpdateTask _ _ _ => true
  | .evMoveTask _ _ _ => true
  | .evDeleteTask _ _ => true
  | _ => false

/-- Events that delete on Todoist or archive on Notion. -/
def Ev.isDeletionWrite : Ev → Bool
  | .evDeleteTask _ _ => true
  | .evArchivePage _ _ => true
  | _ => false

/-- The collaborator interface consumed by the engine: the Notion and Todoist
repositories' calls, each free to return a value or raise, plus the two pure
cached lookups (`get_project_id`, `from_notion_label`). -/
structure Collab where
  get_page : String → Except PyErr NotionPage
  get_task : String → Except PyErr (Option TodoistTask)
  create_task : TodoistFields → Except PyErr String
  add_comment : String → String → Except PyErr Unit
  complete_task : String → Except PyErr Unit
  reopen_task : String → Except PyErr Unit
  update_task : String → TodoistFields → Except PyErr Unit
  move_task : String → String → Except PyErr Unit
  delete_task : String → Except PyErr Unit
  update_page : String → List (String × BidirectionalFieldMapper.NotionBuiltProp) →
      Except PyErr Unit
  archive_page : String → Except PyErr Unit
  get_comments : String → Except PyErr (List String)
  query_child_tasks : String → Bool → Except PyErr (List NotionPage)
  get_project_id : String → Option String
  from_notion_label : Option String

/-- The mutable state an invocation threads: the sync-state table and the
trace of collaborator calls made so far. -/
structure EngState where
  db : List SyncStateRow
  trace : List Ev
deriving DecidableEq, Repr

/-- Append an event to the trace. -/
def emit (s : EngState) (e : Ev) : EngState :=
  { s with trace := s.trace ++ [e] }

namespace BidirectionalSyncEngine

/-- The engine's own `_changed_since_last_sync` (lines 264-279), same
semantics as the resolver's copy under the timestamp-instant model. -/
def changed_since_last_sync (last_modified : Option Timestamp) (last_sync : Timestamp) :
    Bool :=
  match last_modified with
  | none => false
  | some t => decide (t > last_sync)

/-- `_has_conflict` (lines 233-262): conflict iff a sync-state row exists and
both sides changed since its `last_synced_at` (always truthy and parseable in
the model, being written by `datetime('now')`).  Note the Notion side here
uses `last_edited_time or created_time`. -/
def has_conflict (notion_task : NotionTask) (todoist_task : TodoistTask)
    (sync_state : Option SyncStateRow) : Bool :=
  match sync_state with
  | none => false
  | some st =>
    let notion_changed := changed_since_last_sync
      (notion_task.last_edited_time.orElse (fun _ => notion_task.created_time))
      st.last_synced_at
    let todoist_changed := changed_since_last_sync todoist_task.created_at st.last_synced_at
    notion_changed && todoist_changed

/-- `_looks_like_recurrence` (lines 326-336). -/
def looks_like_recurrence (value : String) : Bool :=
  if value.isEmpty then false
  else
    let lower := value.toLower
    ["every", "daily", "weekly", "monthly", "yearly", "each", "workday", "weekday"].any
      (fun kw => strContains lower kw)

/-- `_prepare_update_fields` (lines 338-389), translated in full.  Its first
step reads `task.is_recurring`, an attribute the `TodoistTask` dataclass does
not define, so every call raises `AttributeError` before reaching the rest of
the body (which is therefore dead code in the source, translated here all the
same). -/
def prepare_update_fields (c : Collab) (task : TodoistTask)
    (todoist_fields : TodoistFields) : Except PyErr TodoistFields := do
  let is_rec ← task.is_recurring
  let skip_due : Bool :=
    if is_rec then
      match fget todoist_fields "due_string" with
      | some v =>
        if pyTruthyVal v && looks_like_recurrence (pyStr v) then false else true
      | none => true
    else false
  let uf0 : TodoistFields := []
  let uf1 ←
    if !skip_due && fcontains todoist_fields "due_date" then
      match fget todoist_fields "due_date" with
      | some (.vStr sv) =>
        if strContains sv "T" then pure (fset uf0 "due_datetime" (.vStr sv))
        else
          match parseYmd sv with
          | some d => pure (fset uf0 "due_date" (.vDate d))
          | none => Except.error PyErr.valueError
      | some (.vDate d) => pure (fset uf0 "due_date" (.vDate d))
      | _ => pure uf0
    else if !skip_due && fcontains todoist_fields "due_string" then
      match fget todoist_fields "due_string" with
      | some v => pure (fset uf0 "due_string" v)
      | none => pure uf0
    else pure uf0
  let uf2 :=
    ["content", "description", "priority"].foldl
      (fun u f =>
        match fget todoist_fields f with
        | some v => fset u f v
        | none => u)
      uf1
  let uf3 :=
    match fget todoist_fields "project_id" with
    | some v =>
      let isEq :=
        match v, task.project_id with
        | .vStr s, some pid => s = pid
        | _, _ => false
      if !isEq then fset uf2 "project_id" v else uf2
    | none => uf2
  let current_labels := task.labels
  let labelsVal : TodoistVal :=
    match fget todoist_fields "labels" with
    | some v => v
    | none => .vList current_labels
  let labelsVal2 ←
    match truthyOptStr c.from_notion_label with
    | none => pure labelsVal
    | some lbl => do
      let isIn ← pyInCheck lbl labelsVal
      if isIn then pure labelsVal
      else pyAppend labelsVal lbl
  pure (fset uf3 "labels" labelsVal2)

/-- `_get_project_id_from_fields` (lines 314-324): look up the mapped project
name in the cached project map; a falsy result is only logged. -/
def get_project_id_from_fields (c : Collab) (fs : TodoistFields) : Option String :=
  match fget fs "project" with
  | none => none
  | some v => truthyOptStr (c.get_project_id (pyStr v))

/-- `NotionRepository.get_field_value` (`repositories/notion_repository.py`
lines 91-106). -/
def get_field_value (field_value : Option NotionValue) : Option String :=
  match field_value with
  | none => none
  | some v =>
    match v with
    | .title (t :: _) => some t
    | .richText (t :: _) => some t
    | .select (some nm) => some nm
    | .relation (i :: _) => some i
    | _ => none

/-- `_determine_parent_project` (lines 480-494): first child whose mapped
`project` field resolves to a truthy project id. -/
def determine_parent_project (c : Collab) (cfg : Configuration)
    (child_tasks : List NotionPage) : Option String :=
  child_tasks.findSome? (fun child =>
    cfg.field_mapping.findSome? (fun nf_tf =>
      if nf_tf.2 ≠ "project" then none
      else
        match pget child.properties nf_tf.1 with
        | none => none
        | some prop =>
          match truthyOptStr (get_field_value (some prop)) with
          | none => none
          | some project_name => truthyOptStr (c.get_project_id project_name)))

/-- The create-a-parent tail of `_resolve_parent_task_id` (lines 426-473),
reached when no live parent pairing exists.  All exceptions inside the
enclosing helper are caught by its own `except` and converted to `None`; a
per-child `move_task` failure is additionally caught inside the loop and only
logged. -/
def create_parent_flow (c : Collab) (cfg : Configuration) (now : Timestamp)
    (pcfg : ParentTaskField) (parent_page_id : String) (child_project_id : Option String)
    (s : EngState) : Option String × EngState :=
  match c.query_child_tasks parent_page_id true with
  | .error _ => (none, emit s (.evQueryChildTasks parent_page_id true true))
  | .ok child_tasks =>
    let s := emit s (.evQueryChildTasks parent_page_id true false)
    if child_tasks.length < 1 then (none, s)
    else
      match c.get_page parent_page_id with
      | .error _ => (none, emit s (.evGetPage parent_page_id true))
      | .ok parent_page =>
        let s := emit s (.evGetPage parent_page_id false)
        let parent_title : String :=
          match truthyOptStr (get_field_value (pget parent_page.properties pcfg.title_field)) with
          | none => "Untitled Parent Task"
          | some t => t
        let labels0 : List String :=
          match truthyOptStr c.from_notion_label with
          | some lbl => [lbl]
          | none => []
        let parent_fields0 : TodoistFields :=
          fset [("content", .vStr parent_title)] "labels" (.vList (labels0 ++ ["Project Parent"]))
        let project_id : Option String :=
          match truthyOptStr child_project_id with
          | some pid => some pid
          | none => determine_parent_project c cfg child_tasks
        let parent_fields :=
          match truthyOptStr project_id with
          | some pid => fset parent_fields0 "project_id" (.vStr pid)
          | none => parent_fields0
        match c.create_task parent_fields with
        | .error _ => (none, emit s (.evCreateTask parent_fields true))
        | .ok parent_task_id =>
          let s := emit s (.evCreateTask parent_fields false)
          match c.add_comment parent_task_id ("Notion ID: " ++ parent_page_id) with
          | .error _ =>
            (none, emit s (.evAddComment parent_task_id ("Notion ID: " ++ parent_page_id) true))
          | .ok _ =>
            let s := emit s (.evAddComment parent_task_id ("Notion ID: " ++ parent_page_id) false)
            let s := child_tasks.foldl
              (fun st child =>
                match SyncStateRepository.get_by_notion_id st.db child.id with
                | none => st
                | some child_sync =>
                  match c.move_task child_sync.todoist_id parent_task_id with
                  | .error _ => emit st (.evMoveTask child_sync.todoist_id parent_task_id true)
                  | .ok _ => emit st (.evMoveTask child_sync.todoist_id parent_task_id false))
              s
            let s : EngState :=
              { s with db := (SyncStateRepository.upsert s.db now parent_page_id
                  parent_task_id none none "notion_to_todoist") }
            (some parent_task_id, s)

/-- `_resolve_parent_task_id` (lines 391-478): gated by the parent-task
configuration and the page's relation property; an existing live pairing is
reused, otherwise `create_parent_flow`.  The helper's own `try/except`
converts every exception inside it (including collaborator failures) to
`None`, so the helper itself never raises. -/
def resolve_parent_task_id (c : Collab) (cfg : Configuration) (now : Timestamp)
    (notion_page : NotionPage) (child_project_id : Option String) (s : EngState) :
    Option String × EngState :=
  match cfg.parent_task_field with
  | none => (none, s)
  | some pcfg =>
    if !pcfg.create_parent then (none, s)
    else
      match truthyOptStr pcfg.name with
      | none => (none, s)
      | some parent_field_name =>
        match pget notion_page.properties parent_field_name with
        | none => (none, s)
        | some parent_prop =>
          match parent_prop with
          | .relation rel_ids =>
            match rel_ids with
            | [] => (none, s)
            | parent_page_id :: _ =>
              match SyncStateRepository.get_by_notion_id s.db parent_page_id with
              | some parent_sync =>
                match c.get_task parent_sync.todoist_id with
                | .error _ => (none, emit s (.evGetTask parent_sync.todoist_id true))
                | .ok opt =>
                  let s := emit s (.evGetTask parent_sync.todoist_id false)
                  match opt with
                  | some _ => (some parent_sync.todoist_id, s)
                  | none =>
                    create_parent_flow c cfg now pcfg parent_page_id child_project_id s
              | none => create_parent_flow c cfg now pcfg parent_page_id child_project_id s
          | _ => (none, s)

/-- The project-reference resolution of `sync_task_from_notion` (lines 72-76):
replace the mapped `project` name by the resolved `project_id`. -/
def apply_project_mapping (c : Collab) (fields : TodoistFields) : TodoistFields :=
  match get_project_id_from_fields c fields with
  | some pid => fremove (fset fields "project_id" (.vStr pid)) "project"
  | none => fields

/-- The due-date preference block of `sync_task_from_notion` (lines 78-89):
prefer the exact ISO value over the NLP-parsed string; a date-only string is
parsed with `strptime` (raising `ValueError` on malformed input, uncaught). -/
def apply_due_date_preference (fields : TodoistFields) : Except PyErr TodoistFields :=
  match fget fields "due_date" with
  | none => .ok fields
  | some due_value =>
    let fs := fremove (fremove fields "due_date") "due_string"
    match due_value with
    | .vStr sv =>
      if strContains sv "T" then .ok (fset fs "due_datetime" (.vStr sv))
      else
        match parseYmd sv with
        | some d => .ok (fset fs "due_date" (.vDate d))
        | none => .error .valueError
    | .vDate d => .ok (fset fs "due_date" (.vDate d))
    | _ => .ok fs

/-- The From-Notion-label block of `sync_task_from_notion` (lines 98-102):
default the `labels` entry and append the configured label when absent
(membership/append on a non-list value raise, as in Python). -/
def ensure_from_notion_label (c : Collab) (fields : TodoistFields) :
    Except PyErr TodoistFields :=
  let fields4 := if fcontains fields "labels" then fields else fset fields "labels" (.vList [])
  match truthyOptStr c.from_notion_label with
  | none => .ok fields4
  | some lbl =>
    match fget fields4 "labels" with
    | some lv => do
      let isIn ← pyInCheck lbl lv
      if isIn then pure fields4
      else do
        let lv2 ← pyAppend lv lbl
        pure (fset fields4 "labels" lv2)
    | none => .ok fields4

/-- The common tail of `sync_task_from_notion` (lines 135-144): record the
pairing with the freshest Notion timestamp and the direction. -/
def finish_notion_upsert (now : Timestamp) (notion_page_id result_id : String)
    (notion_last_edited : Option Timestamp) (s : EngState) :
    Except PyErr (Option String) × EngState :=
  let s : EngState :=
    { s with db := (SyncStateRepository.upsert s.db now notion_page_id result_id
        (notion_last_edited.map (fun t => toString t)) none "notion_to_todoist") }
  (.ok (some result_id), s)

/-- The create branch of `sync_task_from_notion` (lines 104-111 plus the
common upsert tail): skip when no truthy `content` was mapped, otherwise
create, annotate with the back-reference comment, and record the pairing. -/
def create_new_task_branch (c : Collab) (now : Timestamp) (notion_page_id : String)
    (notion_last_edited : Option Timestamp) (fields : TodoistFields) (s : EngState) :
    Except PyErr (Option String) × EngState :=
  let contentTruthy : Bool :=
    match fget fields "content" with
    | some v => pyTruthyVal v
    | none => false
  if !contentTruthy then (.ok none, s)
  else
    match c.create_task fields with
    | .error e => (.error e, emit s (.evCreateTask fields true))
    | .ok new_id =>
      let s := emit s (.evCreateTask fields false)
      match c.add_comment new_id ("Notion ID: " ++ notion_page_id) with
      | .error e =>
        (.error e, emit s (.evAddComment new_id ("Notion ID: " ++ notion_page_id) true))
      | .ok _ =>
        let s := emit s (.evAddComment new_id ("Notion ID: " ++ notion_page_id) false)
        finish_notion_upsert now notion_page_id new_id notion_last_edited s

/-- The completion-transition / field-update / re-parent section of the
update branch (lines 114-133): completion transitions are exclusive;
otherwise prepare the update payload, apply it when non-empty, then re-parent
via `move_task`.  This section never writes the sync table. -/
def completion_or_update_step (c : Collab) (completed : Bool)
    (parent_task_id : Option String) (tt : TodoistTask) (fields : TodoistFields)
    (s : EngState) : Except PyErr Unit × EngState :=
  if completed then
    if !tt.is_completed then
      match c.complete_task tt.id with
      | .error e => (.error e, emit s (.evCompleteTask tt.id true))
      | .ok _ => (.ok (), emit s (.evCompleteTask tt.id false))
    else (.ok (), s)
  else
    if tt.is_completed then
      match c.reopen_task tt.id with
      | .error e => (.error e, emit s (.evReopenTask tt.id true))
      | .ok _ => (.ok (), emit s (.evReopenTask tt.id false))
    else
      match prepare_update_fields c tt fields with
      | .error e => (.error e, s)
      | .ok update_fields =>
        let afterUpdate : Except PyErr Unit × EngState :=
          match update_fields with
          | [] => (.ok (), s)
          | _ =>
            match c.update_task tt.id update_fields with
            | .error e => (.error e, emit s (.evUpdateTask tt.id update_fields true))
            | .ok _ => (.ok (), emit s (.evUpdateTask tt.id update_fields false))
        match afterUpdate with
        | (.error e, s1) => (.error e, s1)
        | (.ok _, s1) =>
          match truthyOptStr parent_task_id with
          | none => (.ok (), s1)
          | some pid =>
            if tt.parent_id ≠ some pid then
              match c.move_task tt.id pid with
              | .error e => (.error e, emit s1 (.evMoveTask tt.id pid true))
              | .ok _ => (.ok (), emit s1 (.evMoveTask tt.id pid false))
            else (.ok (), s1)

/-- The update branch of `sync_task_from_notion` (lines 112-133 plus the
common upsert tail). -/
def update_existing_task_branch (c : Collab) (cfg : Configuration) (now : Timestamp)
    (notion_page_id : String) (notion_page : NotionPage)
    (notion_last_edited : Option Timestamp) (parent_task_id : Option String)
    (tt : TodoistTask) (fields : TodoistFields) (s : EngState) :
    Except PyErr (Option String) × EngState :=
  match BidirectionalFieldMapper.is_task_completed cfg notion_page with
  | .error e => (.error e, s)
  | .ok completed =>
    match completion_or_update_step c completed parent_task_id tt fields s with
    | (.error e, s1) => (.error e, s1)
    | (.ok _, s1) => finish_notion_upsert now notion_page_id tt.id notion_last_edited s1

/-- The conflict gate of `sync_task_from_notion` (lines 54-67): skip when a
conflict is detected and Todoist wins it. -/
def conflict_skip_from_notion (strategy : ConflictResolutionStrategy)
    (notion_task : NotionTask) (todoist_task_opt : Option TodoistTask)
    (sync_state : Option SyncStateRow) : Bool :=
  match todoist_task_opt with
  | none => false
  | some tt =>
    if has_conflict notion_task tt sync_state then
      !(ConflictResolver.resolve strategy notion_task tt sync_state).1
    else false

/-- The conflict gate of `sync_task_from_todoist` (lines 175-188): skip when a
conflict is detected and Notion wins it. -/
def conflict_skip_from_todoist (strategy : ConflictResolutionStrategy)
    (notion_task : NotionTask) (todoist_task : TodoistTask)
    (sync_state : Option SyncStateRow) : Bool :=
  if has_conflict notion_task todoist_task sync_state then
    (ConflictResolver.resolve strategy notion_task todoist_task sync_state).1
  else false

/-- The existing-counterpart fetch of `sync_task_from_notion` (lines 47-52):
look up the Todoist task recorded in the sync-state row, when one exists. -/
def fetch_existing_todoist_task (c : Collab) (sync_state : Option SyncStateRow)
    (s : EngState) : Except PyErr (Option TodoistTask) × EngState :=
  match sync_state with
  | none => (.ok none, s)
  | some st =>
    match c.get_task st.todoist_id with
    | .error e => (.error e, emit s (.evGetTask st.todoist_id true))
    | .ok opt => (.ok opt, emit s (.evGetTask st.todoist_id false))

/-- `sync_task_from_notion` body (lines 39-145), i.e. everything inside the
top-level `try`, assembled from the stage functions above.  Returns the raw
outcome: `Except.error` when an uncaught exception escapes the body. -/
def sync_from_notion_body (c : Collab) (cfg : Configuration)
    (strategy : ConflictResolutionStrategy) (now : Timestamp) (notion_page_id : String)
    (s : EngState) : Except PyErr (Option String) × EngState :=
  match c.get_page notion_page_id with
  | .error e => (.error e, emit s (.evGetPage notion_page_id true))
  | .ok notion_page =>
    let s := emit s (.evGetPage notion_page_id false)
    let notion_task := notion_task_from_dict notion_page cfg.field_mapping
    let sync_state := SyncStateRepository.get_by_notion_id s.db notion_page_id
    match fetch_existing_todoist_task c sync_state s with
    | (.error e, s1) => (.error e, s1)
    | (.ok todoist_task_opt, s1) =>
      if conflict_skip_from_notion strategy notion_task todoist_task_opt sync_state then
        let s2 : EngState :=
          { s1 with db := (SyncStateRepository.update_timestamps s1.db now notion_page_id
              (notion_task.last_edited_time.map (fun t => toString t)) none) }
        (.ok none, s2)
      else
        let todoist_fields1 := apply_project_mapping c
          (BidirectionalFieldMapper.map_notion_to_todoist cfg notion_page)
        match apply_due_date_preference todoist_fields1 with
        | .error e => (.error e, s1)
        | .ok todoist_fields2 =>
          let pr := resolve_parent_task_id c cfg now notion_page
            ((fget todoist_fields2 "project_id").map pyStr) s1
          let parent_task_id := pr.1
          let todoist_fields3 :=
            match truthyOptStr parent_task_id with
            | some pid => fset todoist_fields2 "parent_id" (.vStr pid)
            | none => todoist_fields2
          match ensure_from_notion_label c todoist_fields3 with
          | .error e => (.error e, pr.2)
          | .ok todoist_fields5 =>
            match todoist_task_opt with
            | none =>
              create_new_task_branch c now notion_page_id notion_task.last_edited_time
                todoist_fields5 pr.2
            | some tt =>
              update_existing_task_branch c cfg now notion_page_id notion_page
                notion_task.last_edited_time parent_task_id tt todoist_fields5 pr.2

/-- `sync_task_from_notion` (lines 33-149): the body wrapped in the top-level
`try/except Exception` which logs and returns `None`. -/
def sync_task_from_notion (c : Collab) (cfg : Configuration)
    (strategy : ConflictResolutionStrategy) (now : Timestamp) (notion_page_id : String)
    (s : EngState) : Option String × EngState :=
  match sync_from_notion_body c cfg strategy now notion_page_id s with
  | (.ok r, s1) => (r, s1)
  | (.error _, s1) => (none, s1)

/-- `_get_notion_id_from_todoist_task` (lines 281-312): scan the task's
comments for a `Notion ID:` marker; any exception (collaborator failure
included) is caught inside the helper and converted to `None`.  Pagination
collapsing is modelled by the oracle returning the flat list of comment
contents. -/
def get_notion_id_from_todoist_task (c : Collab) (task_id : String) (s : EngState) :
    Option String × EngState :=
  match c.get_comments task_id with
  | .error _ => (none, emit s (.evGetComments task_id true))
  | .ok comments =>
    let s := emit s (.evGetComments task_id false)
    let found := comments.findSome? (fun content0 =>
      let content := content0.trim
      if strContains content "Notion ID:" then
        some ((content.replace "Notion ID:" "").trim)
      else none)
    (found, s)

/-- The property-update write of `sync_task_from_todoist` (lines 196-199):
update the Notion page when the built property dict is non-empty. -/
def update_page_step (c : Collab) (notion_id : String)
    (properties : List (String × BidirectionalFieldMapper.NotionBuiltProp)) (s : EngState) :
    Except PyErr Unit × EngState :=
  match properties with
  | [] => (.ok (), s)
  | _ =>
    match c.update_page notion_id properties with
    | .error e => (.error e, emit s (.evUpdatePage notion_id properties true))
    | .ok _ => (.ok (), emit s (.evUpdatePage notion_id properties false))

/-- The completion-status write of `sync_task_from_todoist` (lines 201-216):
when a completion field is configured and the two sides disagree, write the
status property. -/
def completion_status_step (c : Collab) (cfg : Configuration) (notion_id : String)
    (todoist_task : TodoistTask) (notion_task : NotionTask) (s : EngState) :
    Except PyErr Unit × EngState :=
  match cfg.completion_field with
  | none => (.ok (), s)
  | some cf =>
    if todoist_task.is_completed != notion_task.is_completed then
      let status_value :=
        if todoist_task.is_completed then cf.done_value else "Not Started"
      let status_property := [(cf.name,
        BidirectionalFieldMapper.NotionBuiltProp.statusProp status_value)]
      match c.update_page notion_id status_property with
      | .error e => (.error e, emit s (.evUpdatePage notion_id status_property true))
      | .ok _ => (.ok (), emit s (.evUpdatePage notion_id status_property false))
    else (.ok (), s)

/-- `sync_task_from_todoist` body (lines 157-226).  `TodoistTask.from_dict` on
a `None` payload evaluates `data.id` on `None` and raises `AttributeError`. -/
def sync_from_todoist_body (c : Collab) (cfg : Configuration)
    (strategy : ConflictResolutionStrategy) (now : Timestamp) (todoist_task_id : String)
    (s : EngState) : Except PyErr (Option String) × EngState :=
  match c.get_task todoist_task_id with
  | .error e => (.error e, emit s (.evGetTask todoist_task_id true))
  | .ok opt =>
    let s := emit s (.evGetTask todoist_task_id false)
    match opt with
    | none => (.error .attributeError, s)
    | some todoist_task =>
      match get_notion_id_from_todoist_task c todoist_task_id s with
      | (nidOpt, s2) =>
        match truthyOptStr nidOpt with
        | none => (.ok none, s2)
        | some notion_id =>
          match c.get_page notion_id with
          | .error e => (.error e, emit s2 (.evGetPage notion_id true))
          | .ok notion_page =>
            let s3 := emit s2 (.evGetPage notion_id false)
            let notion_task := notion_task_from_dict notion_page cfg.field_mapping
            let sync_state := SyncStateRepository.get_by_notion_id s3.db notion_id
            if conflict_skip_from_todoist strategy notion_task todoist_task sync_state then
              let s4 : EngState :=
                { s3 with db := (SyncStateRepository.update_timestamps s3.db now notion_id none
                    (todoist_task.created_at.map (fun t => toString t))) }
              (.ok none, s4)
            else
              match BidirectionalFieldMapper.map_todoist_to_notion cfg todoist_task with
              | .error e => (.error e, s3)
              | .ok _ =>
                match BidirectionalFieldMapper.build_notion_properties cfg todoist_task with
                | .error e => (.error e, s3)
                | .ok properties =>
                  match update_page_step c notion_id properties s3 with
                  | (.error e, s4) => (.error e, s4)
                  | (.ok _, s4) =>
                    match completion_status_step c cfg notion_id todoist_task notion_task s4 with
                    | (.error e, s5) => (.error e, s5)
                    | (.ok _, s5) =>
                      let s6 : EngState :=
                        { s5 with db := (SyncStateRepository.upsert s5.db now notion_id
                            todoist_task_id none
                            (todoist_task.created_at.map (fun t => toString t))
                            "todoist_to_notion") }
                      (.ok (some notion_id), s6)

/-- `sync_task_from_todoist` (lines 151-231): body wrapped in the top-level
`try/except Exception` which logs and returns `None`. -/
def sync_task_from_todoist (c : Collab) (cfg : Configuration)
    (strategy : ConflictResolutionStrategy) (now : Timestamp) (todoist_task_id : String)
    (s : EngState) : Option String × EngState :=
  match sync_from_todoist_body c cfg strategy now todoist_task_id s with
  | (.ok r, s1) => (r, s1)
  | (.error _, s1) => (none, s1)

end BidirectionalSyncEngine

/-! ## Orchestrator event dispatch (`sync/orchestrator.py`) -/

namespace SyncOrchestrator

/-- `_process_todoist_event` (lines 156-184), statistics counters omitted.
The body is wrapped in `try/except` (so an `archive_page` failure is only
logged); a falsy `task_id` returns immediately. -/
def process_todoist_event (c : Collab) (cfg : Configuration)
    (strategy : ConflictResolutionStrategy) (now : Timestamp) (event_type : String)
    (task_id_opt : Option String) (s : EngState) : EngState :=
  match truthyOptStr task_id_opt with
  | none => s
  | some task_id =>
    if event_type = "item:deleted" then
      let r := BidirectionalSyncEngine.get_notion_id_from_todoist_task c task_id s
      let s := r.2
      match truthyOptStr r.1 with
      | none => s
      | some notion_id =>
        if cfg.sync_deletions then
          match c.archive_page notion_id with
          | .error _ => emit s (.evArchivePage notion_id true)
          | .ok _ => emit s (.evArchivePage notion_id false)
        else s
    else (BidirectionalSyncEngine.sync_task_from_todoist c cfg strategy now task_id s).2

/-- `_process_notion_event` (lines 186-216), statistics counters omitted.
Deletion propagation requires both an existing sync-state row and the
`sync_deletions` flag; the row is removed only after a successful
`delete_task`. -/
def process_notion_event (c : Collab) (cfg : Configuration)
    (strategy : ConflictResolutionStrategy) (now : Timestamp) (event_type : String)
    (page_id_opt : Option String) (s : EngState) : EngState :=
  match truthyOptStr page_id_opt with
  | none => s
  | some page_id =>
    if event_type = "page.deleted" then
      match SyncStateRepository.get_by_notion_id s.db page_id with
      | some sync_state =>
        if cfg.sync_deletions then
          match truthyOptStr (some sync_state.todoist_id) with
          | some todoist_id =>
            match c.delete_task todoist_id with
            | .error _ => emit s (.evDeleteTask todoist_id true)
            | .ok _ =>
              let s := emit s (.evDeleteTask todoist_id false)
              { s with db := SyncStateRepository.delete s.db page_id }
          | none => s
        else s
      | none => s
    else (BidirectionalSyncEngine.sync_task_from_notion c cfg strategy now page_id s).2

end SyncOrchestrator

/-! ## Auxiliary predicates used by the theorems -/

/-- The page id that `_resolve_parent_task_id` would treat as the parent (the
first entry of the configured relation property): the only sync-state row the
helper can upsert. -/
def parent_relation_target (cfg : Configuration) (page : NotionPage) : Option String :=
  match cfg.parent_task_field with
  | none => none
  | some pcfg =>
    if !pcfg.create_parent then none
    else
      match truthyOptStr pcfg.name with
      | none => none
      | some pf =>
        match pget page.properties pf with
        | some (.relation (pid :: _)) => some pid
        | _ => none

/-- A mapped fields dict whose `due_date` value (if a plain string without a
time component) is a well-formed `%Y-%m-%d` date, so the due-date block cannot
raise `ValueError`. -/
def dueOk (fs : TodoistFields) : Prop :=
  ∀ sv, fget fs "due_date" = some (.vStr sv) → strContains sv "T" = false →
    parseYmd sv ≠ none

/-- A mapped fields dict whose `labels` value (if present) is a list, so the
label-membership test and append cannot raise. -/
def labelsOk (fs : TodoistFields) : Prop :=
  ∀ v, fget fs "labels" = some v → ∃ xs, v = TodoistVal.vList xs

/-! ## Concrete fixtures for the counterexamples and witnesses -/

/-- A collaborator whose calls all succeed with neutral values. -/
def collabBase : Collab :=
  { get_page := fun _ => .error .apiError
    get_task := fun _ => .ok none
    create_task := fun _ => .ok "TNEW"
    add_comment := fun _ _ => .ok ()
    complete_task := fun _ => .ok ()
    reopen_task := fun _ => .ok ()
    update_task := fun _ _ => .ok ()
    move_task := fun _ _ => .ok ()
    delete_task := fun _ => .ok ()
    update_page := fun _ _ => .ok ()
    archive_page := fun _ => .ok ()
    get_comments := fun _ => .ok []
    query_child_tasks := fun _ _ => .ok []
    get_project_id := fun _ => none
    from_notion_label := none }

/-- A title-plus-status configuration: one mapped field (`Name → content`)
and a completion field `Status`/`Done`. -/
def cfgTitleStatus : Configuration :=
  { field_mapping := [("Name", "content")]
    completion_field := some { name := "Status", done_value := "Done" }
    parent_task_field := none
    description_enabled := false
    description_fields := []
    description_separator := "sep"
    sync_deletions := false }

/-- A minimal `NotionTask` with the given timestamps. -/
def simpleNotionTask (le ct : Option Timestamp) : NotionTask :=
  { id := "N", title := "t", description := none, due_date := none, priority := none
    project := none, labels := [], parent_id := none, is_completed := false
    last_edited_time := le, created_time := ct, properties := [] }

/-- A minimal `TodoistTask` with the given creation timestamp. -/
def simpleTodoistTask (ca : Option Timestamp) : TodoistTask :=
  { id := "T", content := "t", description := none, due_date := none, priority := 1
    project_id := none, labels := [], parent_id := none, is_completed := false
    created_at := ca, due_string := none }

/-- A minimal sync-state row with the given `last_synced_at`. -/
def simpleRow (ls : Timestamp) : SyncStateRow :=
  { notion_id := "N", todoist_id := "T", notion_last_edited := none
    todoist_last_edited := none, last_synced_at := ls, last_sync_direction := none
    conflict_count := 0, created_at := 0 }

/-- C1 fixture: a parent-task configuration pointing at the `Parent` relation. -/
def c1_cfg : Configuration :=
  { cfgTitleStatus with
    parent_task_field := some { create_parent := true, name := some "Parent", title_field := "Name" } }

/-- C1 fixture: a page whose parent relation points at page `PP`. -/
def c1_page : NotionPage :=
  { id := "P1", last_edited_time := some 30, created_time := some 10
    properties := [("Name", .title ["child"]), ("Parent", .relation ["PP"])] }

/-- C1 fixture: `query_child_tasks` (the parent-resolution helper's
collaborator call) raises; everything else succeeds. -/
def c1_collab : Collab :=
  { collabBase with
    get_page := fun pid => if pid = "P1" then .ok c1_page else .error .apiError
    query_child_tasks := fun _ _ => .error .apiError }

/-- C2/C4 fixture: a completed page last edited at 30. -/
def c2_page : NotionPage :=
  { id := "P2", last_edited_time := some 30, created_time := some 10
    properties := [("Name", .title ["Buy milk"]), ("Status", .status (some "Done"))] }

/-- C2 fixture: the completed Todoist counterpart, created at 40. -/
def c2_task : TodoistTask :=
  { id := "T2", content := "Buy milk", description := none, due_date := none, priority := 1
    project_id := none, labels := [], parent_id := none, is_completed := true
    created_at := some 40, due_string := none }

/-- C2/C4 fixture: the existing pairing row, last synced at 50. -/
def c2_row : SyncStateRow :=
  { notion_id := "P2", todoist_id := "T2", notion_last_edited := some "30"
    todoist_last_edited := none, last_synced_at := 50
    last_sync_direction := some "notion_to_todoist", conflict_count := 0, created_at := 5 }

/-- C2 fixture: both snapshots unchanged between the two invocations. -/
def c2_collab : Collab :=
  { collabBase with
    get_page := fun pid => if pid = "P2" then .ok c2_page else .error .apiError
    get_task := fun tid => if tid = "T2" then .ok (some c2_task) else .ok none }

/-- C2 fixture: first invocation, at now = 100. -/
def c2_run1 : Option String × EngState :=
  BidirectionalSyncEngine.sync_task_from_notion c2_collab cfgTitleStatus
    .last_modified_wins 100 "P2" { db := [c2_row], trace := [] }

/-- C2 fixture: second invocation, at now = 200, on the state the first left,
with unchanged external snapshots. -/
def c2_run2 : Option String × EngState :=
  BidirectionalSyncEngine.sync_task_from_notion c2_collab cfgTitleStatus
    .last_modified_wins 200 "P2" { db := c2_run1.2.db, trace := [] }

/-- C3 fixture: a completed page with a mapped title and no sync-state row. -/
def c3_page : NotionPage :=
  { id := "P3", last_edited_time := some 300, created_time := some 10
    properties := [("Name", .title ["Buy milk"]), ("Status", .status (some "Done"))] }

/-- C3 fixture. -/
def c3_collab : Collab :=
  { collabBase with
    get_page := fun pid => if pid = "P3" then .ok c3_page else .error .apiError }

/-- C3 fixture: the invocation under scrutiny. -/
def c3_run : Option String × EngState :=
  BidirectionalSyncEngine.sync_task_from_notion c3_collab cfgTitleStatus
    .last_modified_wins 400 "P3" { db := [], trace := [] }

/-- C4 fixture: the completed page, last edited at 300 (after the last sync
at 50 and after Todoist's 200). -/
def c4_page : NotionPage :=
  { c2_page with last_edited_time := some 300 }

/-- C4 fixture: the still-open counterpart, changed at 200 (also after the
last sync at 50). -/
def c4_task : TodoistTask :=
  { c2_task with is_completed := false, created_at := some 200 }

/-- C4 fixture. -/
def c4_collab : Collab :=
  { collabBase with
    get_page := fun pid => if pid = "P2" then .ok c4_page else .error .apiError
    get_task := fun tid => if tid = "T2" then .ok (some c4_task) else .ok none }

/-- C4 fixture: the both-sides-changed reconciliation, at now = 400. -/
def c4_run : Option String × EngState :=
  BidirectionalSyncEngine.sync_task_from_notion c4_collab cfgTitleStatus
    .last_modified_wins 400 "P2" { db := [c2_row], trace := [] }

/-- C5 fixture: any Todoist task (the failing input for
`_prepare_update_fields`). -/
def c5_task : TodoistTask :=
  { id := "T5", content := "write report", description := none, due_date := some "2024-03-15"
    priority := 1, project_id := none, labels := [], parent_id := none, is_completed := false
    created_at := some 10, due_string := some "every day" }

/-- C10 fixture: an existing row whose `last_synced_at` is 5. -/
def c10_row : SyncStateRow :=
  { notion_id := "N10", todoist_id := "T10", notion_last_edited := some "1"
    todoist_last_edited := some "2", last_synced_at := 5
    last_sync_direction := some "notion_to_todoist", conflict_count := 3, created_at := 1 }

/-! ## Helper lemmas (shared) -/

theorem get_by_notion_id_some_eq {db : List SyncStateRow} {nid : String} {r : SyncStateRow}
    (h : SyncStateRepository.get_by_notion_id db nid = some r) : r.notion_id = nid := by
  have := List.find?_some h
  simpa using this

theorem get_by_notion_id_map_keyfix (f : SyncStateRow → SyncStateRow)
    (hf : ∀ r, (f r).notion_id = r.notion_id) (db : List SyncStateRow) (nid : String) :
    SyncStateRepository.get_by_notion_id (db.map f) nid =
      (SyncStateRepository.get_by_notion_id db nid).map f := by
  induction db with
  | nil => rfl
  | cons r rest ih =>
    unfold SyncStateRepository.get_by_notion_id at *
    by_cases h : r.notion_id = nid
    · rw [List.map_cons, List.find?_cons_of_pos _ (by simp [hf, h]),
        List.find?_cons_of_pos _ (by simp [h])]
      rfl
    · rw [List.map_cons, List.find?_cons_of_neg _ (by simp [hf, h]),
        List.find?_cons_of_neg _ (by simp [h])]
      exact ih

theorem upsert_get_self (db : List SyncStateRow) (now : Timestamp) (nid tid : String)
    (nle tle : Option String) (dir : String) :
    SyncStateRepository.get_by_notion_id
        (SyncStateRepository.upsert db now nid tid nle tle dir) nid =
      some (match SyncStateRepository.get_by_notion_id db nid with
        | some r =>
          { r with todoist_id := tid, notion_last_edited := nle, todoist_last_edited := tle
                   last_synced_at := now, last_sync_direction := some dir }
        | none =>
          { notion_id := nid, todoist_id := tid, notion_last_edited := nle
            todoist_last_edited := tle, last_synced_at := now
            last_sync_direction := some dir, conflict_count := 0, created_at := now }) := by
  unfold SyncStateRepository.upsert
  by_cases h : (db.find? (fun r => r.notion_id = nid)).isSome
  · rw [if_pos h,
      get_by_notion_id_map_keyfix _ (fun r => by by_cases hc : r.notion_id = nid <;> simp [hc])]
    obtain ⟨r, hr⟩ := Option.isSome_iff_exists.mp h
    have hrid : r.notion_id = nid := by simpa using List.find?_some hr
    unfold SyncStateRepository.get_by_notion_id
    rw [hr]
    simp [hrid]
  · rw [if_neg h]
    unfold SyncStateRepository.get_by_notion_id
    rw [List.find?_append]
    rw [Option.not_isSome_iff_eq_none] at h
    rw [h]
    simp [List.find?]

theorem upsert_get_ne (db : List SyncStateRow) (now : Timestamp) (nid tid : String)
    (nle tle : Option String) (dir : String) (nid' : String) (h : nid' ≠ nid) :
    SyncStateRepository.get_by_notion_id
        (SyncStateRepository.upsert db now nid tid nle tle dir) nid' =
      SyncStateRepository.get_by_notion_id db nid' := by
  unfold SyncStateRepository.upsert
  by_cases hs : (db.find? (fun r => r.notion_id = nid)).isSome
  · rw [if_pos hs,
      get_by_notion_id_map_keyfix _ (fun r => by by_cases hc : r.notion_id = nid <;> simp [hc])]
    cases hg : SyncStateRepository.get_by_notion_id db nid' with
    | none => rfl
    | some r =>
      have hrid : r.notion_id = nid' := get_by_notion_id_some_eq hg
      simp [hrid, h]
  · rw [if_neg hs]
    unfold SyncStateRepository.get_by_notion_id
    rw [List.find?_append]
    cases hg : db.find? (fun r => r.notion_id = nid') with
    | some r => rfl
    | none =>
      simp only [Option.none_or]
      rw [List.find?_cons_of_neg _ (by simp [Ne.symm h])]
      rfl

theorem get_by_notion_id_map_untouched (db : List SyncStateRow) (nid nid' : String)
    (f : SyncStateRow → SyncStateRow) (hf : ∀ r, (f r).notion_id = r.notion_id)
    (hfix : ∀ r, r.notion_id ≠ nid → f r = r) (h : nid' ≠ nid) :
    SyncStateRepository.get_by_notion_id (db.map f) nid' =
      SyncStateRepository.get_by_notion_id db nid' := by
  rw [get_by_notion_id_map_keyfix f hf]
  cases hg : SyncStateRepository.get_by_notion_id db nid' with
  | none => rfl
  | some r =>
    have hrid : r.notion_id = nid' := get_by_notion_id_some_eq hg
    simp [hfix r (by rw [hrid]; exact h)]

theorem update_timestamps_get_ne (db : List SyncStateRow) (now : Timestamp) (nid : String)
    (a b : Option String) (nid' : String) (h : nid' ≠ nid) :
    SyncStateRepository.get_by_notion_id
        (SyncStateRepository.update_timestamps db now nid a b) nid' =
      SyncStateRepository.get_by_notion_id db nid' := by
  rcases htA : truthyOptStr a with _ | sa <;> rcases htB : truthyOptStr b with _ | sb <;>
    simp only [SyncStateRepository.update_timestamps, htA, htB]
  · rw [get_by_notion_id_map_untouched _ nid nid' _
      (fun r => by by_cases hc : r.notion_id = nid <;> simp [hc])
      (fun r hr => by simp [hr]) h]
  · rw [get_by_notion_id_map_untouched _ nid nid' _
      (fun r => by by_cases hc : r.notion_id = nid <;> simp [hc])
      (fun r hr => by simp [hr]) h]
  · rw [get_by_notion_id_map_untouched _ nid nid' _
      (fun r => by by_cases hc : r.notion_id = nid <;> simp [hc])
      (fun r hr => by simp [hr]) h,
      get_by_notion_id_map_untouched _ nid nid' _
      (fun r => by by_cases hc : r.notion_id = nid <;> simp [hc])
      (fun r hr => by simp [hr]) h]

theorem get_by_notion_id_map_conflict (db : List SyncStateRow) (nid' : String)
    (f : SyncStateRow → SyncStateRow) (r0 : SyncStateRow)
    (hf : ∀ r1, (f r1).notion_id = r1.notion_id)
    (hcc : ∀ r1, (f r1).conflict_count = r1.conflict_count)
    (hg : SyncStateRepository.get_by_notion_id db nid' = some r0) :
    ∃ r1, SyncStateRepository.get_by_notion_id (db.map f) nid' = some r1 ∧
      r1.conflict_count = r0.conflict_count := by
  refine ⟨f r0, ?_, hcc r0⟩
  rw [get_by_notion_id_map_keyfix f hf, hg]
  rfl

theorem update_timestamps_conflict_count (db : List SyncStateRow) (now : Timestamp)
    (nid : String) (a b : Option String) (nid' : String) (r : SyncStateRow)
    (h : SyncStateRepository.get_by_notion_id db nid' = some r) :
    ∃ r', SyncStateRepository.get_by_notion_id
        (SyncStateRepository.update_timestamps db now nid a b) nid' = some r' ∧
      r'.conflict_count = r.conflict_count := by
  rcases htA : truthyOptStr a with _ | sa <;> rcases htB : truthyOptStr b with _ | sb <;>
    simp only [SyncStateRepository.update_timestamps, htA, htB]
  · exact ⟨r, h, rfl⟩
  · exact get_by_notion_id_map_conflict db nid'
      (fun r1 => if r1.notion_id = nid then { r1 with todoist_last_edited := b, last_synced_at := now } else r1)
      r (fun r1 => by by_cases hc : r1.notion_id = nid <;> simp [hc])
      (fun r1 => by by_cases hc : r1.notion_id = nid <;> simp [hc]) h
  · exact get_by_notion_id_map_conflict db nid'
      (fun r1 => if r1.notion_id = nid then { r1 with notion_last_edited := a, last_synced_at := now } else r1)
      r (fun r1 => by by_cases hc : r1.notion_id = nid <;> simp [hc])
      (fun r1 => by by_cases hc : r1.notion_id = nid <;> simp [hc]) h
  · obtain ⟨r1, h1, hc1⟩ := get_by_notion_id_map_conflict db nid'
      (fun r1 => if r1.notion_id = nid then { r1 with notion_last_edited := a, last_synced_at := now } else r1)
      r (fun r1 => by by_cases hc : r1.notion_id = nid <;> simp [hc])
      (fun r1 => by by_cases hc : r1.notion_id = nid <;> simp [hc]) h
    obtain ⟨r2, h2, hc2⟩ := get_by_notion_id_map_conflict _ nid'
      (fun r1 => if r1.notion_id = nid then { r1 with todoist_last_edited := b, last_synced_at := now } else r1)
      r1 (fun r1 => by by_cases hc : r1.notion_id = nid <;> simp [hc])
      (fun r1 => by by_cases hc : r1.notion_id = nid <;> simp [hc]) h1
    exact ⟨r2, h2, by rw [hc2, hc1]⟩

theorem upsert_conflict_count (db : List SyncStateRow) (now : Timestamp) (nid tid : String)
    (nle tle : Option String) (dir : String) (nid' : String) (r : SyncStateRow)
    (h : SyncStateRepository.get_by_notion_id db nid' = some r) :
    ∃ r', SyncStateRepository.get_by_notion_id
        (SyncStateRepository.upsert db now nid tid nle tle dir) nid' = some r' ∧
      r'.conflict_count = r.conflict_count := by
  by_cases he : nid' = nid
  · subst he
    rw [upsert_get_self, h]
    exact ⟨_, rfl, rfl⟩
  · rw [upsert_get_ne db now nid tid nle tle dir nid' he]
    exact ⟨r, h, rfl⟩

theorem emit_db (s : EngState) (e : Ev) : (emit s e).db = s.db := rfl

theorem emit_filter (s : EngState) (e : Ev) (p : Ev → Bool) (hp : p e = false) :
    (emit s e).trace.filter p = s.trace.filter p := by
  simp [emit, List.filter_append, hp]

theorem prepare_update_fields_raises (c : Collab) (task : TodoistTask)
    (todoist_fields : TodoistFields) :
    BidirectionalSyncEngine.prepare_update_fields c task todoist_fields =
      Except.error PyErr.attributeError := rfl

/-! ## Claim theorems -/

/-- C5 (code bug): the recurring-task defense of `_prepare_update_fields`
cannot execute — its very first step reads `task.is_recurring`, an attribute
the `TodoistTask` dataclass does not define, so *every* call (for every task,
recurring or not, and every incoming fields dict) raises `AttributeError`
instead of preparing an update payload with or without due fields. -/
theorem c5_prepare_update_fields_always_raises :
    ∀ (c : Collab) (task : TodoistTask) (todoist_fields : TodoistFields),
      BidirectionalSyncEngine.prepare_update_fields c task todoist_fields =
        Except.error PyErr.attributeError :=
  fun _ _ _ => rfl

/-- C6 (counterexample): the claim says every input outside the priority
domain, including unparsable strings, maps to the lowest-priority default in
*each* direction; but the Todoist→Notion direction (`_reverse_map_priority`)
calls `int()` outside any `try` and raises `ValueError` on the unparsable
string `"high"`. -/
theorem c6_counterexample :
    BidirectionalFieldMapper.reverse_map_priority (.pstr "high") =
      Except.error PyErr.valueError := by decide

/-- C6 (amended): the maps `{1:4,2:3,3:2,4:1}` and `{4:1,3:2,2:3,1:4}` are
mutually inverse on `{1,2,3,4}`; the Notion→Todoist direction defaults to the
lowest Todoist priority `1` on any unparsable or out-of-domain input, and the
Todoist→Notion direction defaults to the lowest Notion priority `"4"` on
out-of-domain integers — but raises `ValueError` on an unparsable string
instead of defaulting. -/
theorem c6_priority_maps :
    (∀ x : Int, (x = 1 ∨ x = 2 ∨ x = 3 ∨ x = 4) →
      BidirectionalFieldMapper.reverse_map_priority
        (.pint (BidirectionalFieldMapper.map_priority (toString x))) = .ok (toString x))
    ∧ (∀ s : String, pyIntOfString s = none →
        BidirectionalFieldMapper.map_priority s = 1)
    ∧ (∀ (s : String) (n : Int), pyIntOfString s = some n →
        ¬(n = 1 ∨ n = 2 ∨ n = 3 ∨ n = 4) → BidirectionalFieldMapper.map_priority s = 1)
    ∧ (∀ n : Int, ¬(n = 1 ∨ n = 2 ∨ n = 3 ∨ n = 4) →
        BidirectionalFieldMapper.reverse_map_priority (.pint n) = .ok "4")
    ∧ (∀ s : String, pyIntOfString s = none →
        BidirectionalFieldMapper.reverse_map_priority (.pstr s) =
          Except.error PyErr.valueError) := by
  refine ⟨?_, ?_, ?_, ?_, ?_⟩
  · intro x hx
    rcases hx with h | h | h | h <;> subst h <;> decide
  · intro s hs
    simp [BidirectionalFieldMapper.map_priority, hs]
  · intro s n hs hn
    push_neg at hn
    simp [BidirectionalFieldMapper.map_priority, hs, hn.1, hn.2.1, hn.2.2.1, hn.2.2.2]
  · intro n hn
    push_neg at hn
    simp [BidirectionalFieldMapper.reverse_map_priority, BidirectionalFieldMapper.pyScalarInt,
      hn.1, hn.2.1, hn.2.2.1, hn.2.2.2]
    rfl
  · intro s hs
    simp [BidirectionalFieldMapper.reverse_map_priority, BidirectionalFieldMapper.pyScalarInt, hs]

/-- C6 witness. -/
theorem c6_witness :
    BidirectionalFieldMapper.reverse_map_priority
        (.pint (BidirectionalFieldMapper.map_priority (toString (2 : Int)))) =
      .ok (toString (2 : Int))
    ∧ BidirectionalFieldMapper.map_priority "abc" = 1 :=
  ⟨c6_priority_maps.1 2 (Or.inr (Or.inl rfl)), c6_priority_maps.2.1 "abc" (by decide)⟩

/-- C7: under `last_modified_wins` with a prior sync record, if exactly the
Notion side changed strictly after `last_synced_at` (the Todoist side's
timestamp being at most `last_synced_at`, or unknown), `resolve` declares
Notion the winner regardless of the Todoist side's absolute timestamp; and
symmetrically Todoist wins when only it changed. -/
theorem c7_only_one_side_changed :
    (∀ (n : NotionTask) (t : TodoistTask) (st : SyncStateRow) (tn : Timestamp),
      n.last_edited_time = some tn → st.last_synced_at < tn →
      (∀ tc, t.created_at = some tc → tc ≤ st.last_synced_at) →
      (ConflictResolver.resolve .last_modified_wins n t (some st)).1 = true)
    ∧ (∀ (n : NotionTask) (t : TodoistTask) (st : SyncStateRow) (tc : Timestamp),
      t.created_at = some tc → st.last_synced_at < tc →
      (∀ tn, n.last_edited_time = some tn → tn ≤ st.last_synced_at) →
      (ConflictResolver.resolve .last_modified_wins n t (some st)).1 = false) := by
  constructor
  · intro n t st tn hn htn htc
    have hnc : ConflictResolver.changed_since_last_sync n.last_edited_time st.last_synced_at
        = true := by
      simp [ConflictResolver.changed_since_last_sync, hn, htn]
    have htc' : ConflictResolver.changed_since_last_sync t.created_at st.last_synced_at
        = false := by
      cases ht : t.created_at with
      | none => simp [ConflictResolver.changed_since_last_sync]
      | some tc =>
        have hle := htc tc ht
        simp [ConflictResolver.changed_since_last_sync, not_lt, hle]
    simp [ConflictResolver.resolve, ConflictResolver.last_modified_wins, hnc, htc']
  · intro n t st tc ht htc hn
    have htc' : ConflictResolver.changed_since_last_sync t.created_at st.last_synced_at
        = true := by
      simp [ConflictResolver.changed_since_last_sync, ht, htc]
    have hnc : ConflictResolver.changed_since_last_sync n.last_edited_time st.last_synced_at
        = false := by
      cases hl : n.last_edited_time with
      | none => simp [ConflictResolver.changed_since_last_sync]
      | some tn =>
        have hle := hn tn hl
        simp [ConflictResolver.changed_since_last_sync, not_lt, hle]
    simp [ConflictResolver.resolve, ConflictResolver.last_modified_wins, hnc, htc']

/-- C7 witness. -/
theorem c7_witness :
    (ConflictResolver.resolve .last_modified_wins (simpleNotionTask (some 11) (some 1))
      (simpleTodoistTask (some 5)) (some (simpleRow 10))).1 = true :=
  c7_only_one_side_changed.1 (simpleNotionTask (some 11) (some 1))
    (simpleTodoistTask (some 5)) (simpleRow 10) 11 rfl (by decide)
    (fun tc h => by
      simp only [simpleTodoistTask] at h
      cases h
      decide)

/-- C8: whenever the fallback direct timestamp comparison of
`last_modified_wins` is reached (no prior record, or the changed-since checks
agree on both sides), an unknown timestamp on exactly one side makes the
other side win, and exactly equal timestamps make Notion (side A) win. -/
theorem c8_fallback_tiebreak :
    ∀ (n : NotionTask) (t : TodoistTask) (stOpt : Option SyncStateRow),
      (∀ st, stOpt = some st →
        ConflictResolver.changed_since_last_sync n.last_edited_time st.last_synced_at =
          ConflictResolver.changed_since_last_sync t.created_at st.last_synced_at) →
      ((ConflictResolver.notion_best_time n = none →
          (∀ tc, t.created_at = some tc →
            (ConflictResolver.resolve .last_modified_wins n t stOpt).1 = false))
      ∧ (t.created_at = none →
          (∀ tn, ConflictResolver.notion_best_time n = some tn →
            (ConflictResolver.resolve .last_modified_wins n t stOpt).1 = true))
      ∧ (∀ ts, ConflictResolver.notion_best_time n = some ts → t.created_at = some ts →
          (ConflictResolver.resolve .last_modified_wins n t stOpt).1 = true)) := by
  intro n t stOpt hfb
  have hred : ConflictResolver.resolve .last_modified_wins n t stOpt =
      ConflictResolver.direct_time_comparison n t := by
    cases stOpt with
    | none => rfl
    | some st =>
      have h := hfb st rfl
      simp [ConflictResolver.resolve, ConflictResolver.last_modified_wins, h]
  refine ⟨?_, ?_, ?_⟩
  · intro hn tc htc
    rw [hred]
    simp [ConflictResolver.direct_time_comparison, hn]
  · intro ht tn hn
    rw [hred]
    simp [ConflictResolver.direct_time_comparison, hn, ht]
  · intro ts hn ht
    rw [hred]
    simp [ConflictResolver.direct_time_comparison, hn, ht]

/-- C8 witness. -/
theorem c8_witness :
    (ConflictResolver.resolve .last_modified_wins (simpleNotionTask (some 7) none)
      (simpleTodoistTask (some 7)) none).1 = true :=
  (c8_fallback_tiebreak (simpleNotionTask (some 7) none) (simpleTodoistTask (some 7)) none
    (fun _ h => nomatch h)).2.2 7 rfl rfl

/-- C10 (counterexample): the claim says a *non-None* timestamp argument
resets `last_synced_at` to the current time; but `update_timestamps` guards
each UPDATE with Python truthiness, so the non-None empty string leaves the
row (and its `last_synced_at` of 5, not the current time 9) untouched. -/
theorem c10_counterexample :
    SyncStateRepository.update_timestamps [c10_row] 9 "N10" (some "") none = [c10_row]
    ∧ c10_row.last_synced_at = 5 :=
  ⟨rfl, rfl⟩

/-- C10 (amended): for a *truthy* (non-None, non-empty) timestamp argument,
`update_timestamps` rewrites exactly the matching row — storing the argument
and resetting `last_synced_at` to the current time, with `todoist_id`,
`last_sync_direction`, `conflict_count`, `created_at` and every other row
untouched; with both arguments `None` (or empty) the store is unchanged. -/
theorem c10_update_timestamps :
    (∀ (db : List SyncStateRow) (now : Timestamp) (nid : String) (s : String),
      s.isEmpty = false →
      SyncStateRepository.update_timestamps db now nid (some s) none =
        db.map (fun r =>
          if r.notion_id = nid then
            { r with notion_last_edited := some s, last_synced_at := now }
          else r))
    ∧ (∀ (db : List SyncStateRow) (now : Timestamp) (nid : String) (s : String),
      s.isEmpty = false →
      SyncStateRepository.update_timestamps db now nid none (some s) =
        db.map (fun r =>
          if r.notion_id = nid then
            { r with todoist_last_edited := some s, last_synced_at := now }
          else r))
    ∧ (∀ (db : List SyncStateRow) (now : Timestamp) (nid : String),
      SyncStateRepository.update_timestamps db now nid none none = db) := by
  refine ⟨?_, ?_, ?_⟩
  · intro db now nid s hs
    simp [SyncStateRepository.update_timestamps, truthyOptStr, hs]
  · intro db now nid s hs
    simp [SyncStateRepository.update_timestamps, truthyOptStr, hs]
  · intro db now nid
    rfl

/-- The comment-scan helper performs no write and leaves the sync table
unchanged: it only appends one `get_comments` read event. -/
theorem get_notion_id_frame (c : Collab) (tid : String) (s : EngState) (p : Ev → Bool)
    (hp : ∀ b, p (.evGetComments tid b) = false) :
    (BidirectionalSyncEngine.get_notion_id_from_todoist_task c tid s).2.db = s.db
    ∧ (BidirectionalSyncEngine.get_notion_id_from_todoist_task c tid s).2.trace.filter p =
        s.trace.filter p := by
  unfold BidirectionalSyncEngine.get_notion_id_from_todoist_task
  cases h : c.get_comments tid <;> simp [emit, List.filter_append, hp]

/-- C3 (code bug): a completed Notion page (`Status = Done`) with a mapped
title and *no* SyncState row is re-created on Todoist: `sync_task_from_notion`
has no completed-skip before its create branch (the superseded
`sync_notion_to_todoist.py` lineage does, at its lines 972-975), so the
invocation issues `create_task`, returns the new id and records a pairing —
where the claim (and the spec) say no counterpart is ever re-created. -/
theorem c3_completed_task_recreated :
    BidirectionalFieldMapper.is_task_completed cfgTitleStatus c3_page = .ok true
    ∧ c3_run.1 = some "TNEW"
    ∧ c3_run.2.trace = [.evGetPage "P3" false,
        .evCreateTask [("content", .vStr "Buy milk"), ("labels", .vList [])] false,
        .evAddComment "TNEW" "Notion ID: P3" false]
    ∧ SyncStateRepository.get_by_notion_id c3_run.2.db "P3" ≠ none := by
  refine ⟨?_, ?_, ?_, ?_⟩ <;> decide

/-- The move-children loop of `create_parent_flow` only emits move events:
the sync table is untouched. -/
theorem move_children_db (c : Collab) (ptid : String) (l : List NotionPage) (s : EngState) :
    (l.foldl (fun st child =>
      match SyncStateRepository.get_by_notion_id st.db child.id with
      | none => st
      | some child_sync =>
        match c.move_task child_sync.todoist_id ptid with
        | .error _ => emit st (.evMoveTask child_sync.todoist_id ptid true)
        | .ok _ => emit st (.evMoveTask child_sync.todoist_id ptid false)) s).db = s.db := by
  induction l generalizing s with
  | nil => rfl
  | cons x xs ih =>
    rw [List.foldl_cons, ih]
    cases hg : SyncStateRepository.get_by_notion_id s.db x.id with
    | none => simp [hg]
    | some cs => cases hm : c.move_task cs.todoist_id ptid <;> simp [hg, hm, emit]

/-- `create_parent_flow` can only touch the parent page's row: every other
row of the sync table is preserved. -/
theorem create_parent_flow_db_ne (c : Collab) (cfg : Configuration) (now : Timestamp)
    (pcfg : ParentTaskField) (ppid : String) (cpid : Option String) (s : EngState)
    (nid : String) (h : nid ≠ ppid) :
    SyncStateRepository.get_by_notion_id
        (BidirectionalSyncEngine.create_parent_flow c cfg now pcfg ppid cpid s).2.db nid =
      SyncStateRepository.get_by_notion_id s.db nid := by
  unfold BidirectionalSyncEngine.create_parent_flow
  dsimp only
  repeat' split
  all_goals first
    | rfl
    | (rw [upsert_get_ne _ now ppid _ none none _ nid h, move_children_db]; rfl)

/-- `create_parent_flow` never changes any existing row's `conflict_count`
(its only table write is an upsert, which preserves the counter). -/
theorem create_parent_flow_conflict (c : Collab) (cfg : Configuration) (now : Timestamp)
    (pcfg : ParentTaskField) (ppid : String) (cpid : Option String) (s : EngState)
    (nid : String) (r : SyncStateRow)
    (h : SyncStateRepository.get_by_notion_id s.db nid = some r) :
    ∃ r', SyncStateRepository.get_by_notion_id
        (BidirectionalSyncEngine.create_parent_flow c cfg now pcfg ppid cpid s).2.db nid =
          some r'
      ∧ r'.conflict_count = r.conflict_count := by
  unfold BidirectionalSyncEngine.create_parent_flow
  dsimp only
  repeat' split
  all_goals first
    | exact ⟨r, h, rfl⟩
    | exact upsert_conflict_count _ now ppid _ none none _ nid r
        (by rw [move_children_db]; exact h)

/-- `_resolve_parent_task_id` can only upsert the page's parent-relation
target's row; every other row is preserved verbatim. -/
theorem resolve_parent_db_ne (c : Collab) (cfg : Configuration) (now : Timestamp)
    (page : NotionPage) (cpid : Option String) (s : EngState) (nid : String)
    (h : parent_relation_target cfg page ≠ some nid) :
    SyncStateRepository.get_by_notion_id
        (BidirectionalSyncEngine.resolve_parent_task_id c cfg now page cpid s).2.db nid =
      SyncStateRepository.get_by_notion_id s.db nid := by
  unfold BidirectionalSyncEngine.resolve_parent_task_id
  cases hpt : cfg.parent_task_field with
  | none => rfl
  | some pcfg =>
    dsimp only
    by_cases hcp : pcfg.create_parent = true
    case neg =>
      rw [if_pos (by simp [Bool.not_eq_true] at hcp; simp [hcp])]
    case pos =>
    rw [if_neg (by simp [hcp])]
    cases hname : truthyOptStr pcfg.name with
    | none => rfl
    | some pf =>
      dsimp only
      cases hprop : pget page.properties pf with
      | none => rfl
      | some prop =>
        dsimp only
        cases prop
        case relation rel_ids =>
          cases rel_ids with
          | nil => rfl
          | cons ppid rest =>
            dsimp only
            have hne : nid ≠ ppid := by
              intro he
              apply h
              subst he
              simp [parent_relation_target, hpt, hcp, hname, hprop]
            cases hps : SyncStateRepository.get_by_notion_id s.db ppid with
            | some parent_sync =>
              dsimp only
              cases hgt : c.get_task parent_sync.todoist_id with
              | error e => rfl
              | ok opt =>
                dsimp only
                cases opt with
                | some t => rfl
                | none =>
                  rw [create_parent_flow_db_ne c cfg now pcfg ppid cpid _ nid hne]
                  rfl
            | none =>
              rw [create_parent_flow_db_ne c cfg now pcfg ppid cpid s nid hne]
        all_goals rfl

/-- `_resolve_parent_task_id` never changes any existing row's
`conflict_count`. -/
theorem resolve_parent_conflict (c : Collab) (cfg : Configuration) (now : Timestamp)
    (page : NotionPage) (cpid : Option String) (s : EngState) (nid : String)
    (r : SyncStateRow) (h : SyncStateRepository.get_by_notion_id s.db nid = some r) :
    ∃ r', SyncStateRepository.get_by_notion_id
        (BidirectionalSyncEngine.resolve_parent_task_id c cfg now page cpid s).2.db nid =
          some r'
      ∧ r'.conflict_count = r.conflict_count := by
  unfold BidirectionalSyncEngine.resolve_parent_task_id
  dsimp only
  repeat' split
  all_goals first
    | exact ⟨r, h, rfl⟩
    | exact create_parent_flow_conflict c cfg now _ _ cpid _ nid r h

/-- The comment-scan helper's table is the caller's table. -/
theorem get_notion_id_db (c : Collab) (tid : String) (s : EngState) :
    (BidirectionalSyncEngine.get_notion_id_from_todoist_task c tid s).2.db = s.db :=
  (get_notion_id_frame c tid s (fun _ => false) (fun _ => rfl)).1

/-- The `try/except` wrapper returns the body's final state unchanged. -/
theorem sync_task_from_notion_state (c : Collab) (cfg : Configuration)
    (strategy : ConflictResolutionStrategy) (now : Timestamp) (pid : String) (s : EngState) :
    (BidirectionalSyncEngine.sync_task_from_notion c cfg strategy now pid s).2 =
      (BidirectionalSyncEngine.sync_from_notion_body c cfg strategy now pid s).2 := by
  unfold BidirectionalSyncEngine.sync_task_from_notion
  rcases hb : BidirectionalSyncEngine.sync_from_notion_body c cfg strategy now pid s with ⟨res, s1⟩
  cases res <;> rfl

/-- An exception escaping the body is converted to a `None` return by the
top-level handler, with the body's state. -/
theorem sync_task_from_notion_of_error (c : Collab) (cfg : Configuration)
    (strategy : ConflictResolutionStrategy) (now : Timestamp) (pid : String) (s : EngState)
    (e : PyErr) (s1 : EngState)
    (hb : BidirectionalSyncEngine.sync_from_notion_body c cfg strategy now pid s =
      (.error e, s1)) :
    BidirectionalSyncEngine.sync_task_from_notion c cfg strategy now pid s = (none, s1) := by
  unfold BidirectionalSyncEngine.sync_task_from_notion
  rw [hb]

/-- The `try/except` wrapper returns the body's final state unchanged
(Todoist direction). -/
theorem sync_task_from_todoist_state (c : Collab) (cfg : Configuration)
    (strategy : ConflictResolutionStrategy) (now : Timestamp) (tid : String) (s : EngState) :
    (BidirectionalSyncEngine.sync_task_from_todoist c cfg strategy now tid s).2 =
      (BidirectionalSyncEngine.sync_from_todoist_body c cfg strategy now tid s).2 := by
  unfold BidirectionalSyncEngine.sync_task_from_todoist
  rcases hb : BidirectionalSyncEngine.sync_from_todoist_body c cfg strategy now tid s with ⟨res, s1⟩
  cases res <;> rfl

/-- An exception escaping the body is converted to a `None` return by the
top-level handler (Todoist direction). -/
theorem sync_task_from_todoist_of_error (c : Collab) (cfg : Configuration)
    (strategy : ConflictResolutionStrategy) (now : Timestamp) (tid : String) (s : EngState)
    (e : PyErr) (s1 : EngState)
    (hb : BidirectionalSyncEngine.sync_from_todoist_body c cfg strategy now tid s =
      (.error e, s1)) :
    BidirectionalSyncEngine.sync_task_from_todoist c cfg strategy now tid s = (none, s1) := by
  unfold BidirectionalSyncEngine.sync_task_from_todoist
  rw [hb]

/-- The create branch preserves every existing row's `conflict_count`. -/
theorem create_new_task_branch_conflict (c : Collab) (now : Timestamp) (pid : String)
    (nle : Option Timestamp) (fields : TodoistFields) (s : EngState) (nid : String)
    (r : SyncStateRow) (h : SyncStateRepository.get_by_notion_id s.db nid = some r) :
    ∃ r', SyncStateRepository.get_by_notion_id
        (BidirectionalSyncEngine.create_new_task_branch c now pid nle fields s).2.db nid =
          some r'
      ∧ r'.conflict_count = r.conflict_count := by
  unfold BidirectionalSyncEngine.create_new_task_branch BidirectionalSyncEngine.finish_notion_upsert
  dsimp only
  repeat' split
  all_goals first
    | exact ⟨r, h, rfl⟩
    | exact upsert_conflict_count _ now pid _ _ none _ nid r h

/-- The completion/update/move section performs no sync-table write. -/
theorem completion_or_update_step_db (c : Collab) (completed : Bool)
    (ptid : Option String) (tt : TodoistTask) (fields : TodoistFields) (s : EngState) :
    (BidirectionalSyncEngine.completion_or_update_step c completed ptid tt fields s).2.db =
      s.db := by
  unfold BidirectionalSyncEngine.completion_or_update_step
  dsimp only
  repeat' split
  all_goals first
    | rfl
    | simp_all [prepare_update_fields_raises]

/-- The update branch preserves every existing row's `conflict_count`. -/
theorem update_existing_task_branch_conflict (c : Collab) (cfg : Configuration)
    (now : Timestamp) (pid : String) (page : NotionPage) (nle : Option Timestamp)
    (ptid : Option String) (tt : TodoistTask) (fields : TodoistFields) (s : EngState)
    (nid : String) (r : SyncStateRow)
    (h : SyncStateRepository.get_by_notion_id s.db nid = some r) :
    ∃ r', SyncStateRepository.get_by_notion_id
        (BidirectionalSyncEngine.update_existing_task_branch c cfg now pid page nle ptid tt
          fields s).2.db nid = some r'
      ∧ r'.conflict_count = r.conflict_count := by
  unfold BidirectionalSyncEngine.update_existing_task_branch
  cases hic : BidirectionalFieldMapper.is_task_completed cfg page with
  | error e => exact ⟨r, h, rfl⟩
  | ok completed =>
    dsimp only
    rcases hstep : BidirectionalSyncEngine.completion_or_update_step c completed ptid tt
      fields s with ⟨res, s1⟩
    have hdb : s1.db = s.db := by
      have hd := completion_or_update_step_db c completed ptid tt fields s
      rw [hstep] at hd
      exact hd
    cases res with
    | error e => exact ⟨r, by rw [hdb]; exact h, rfl⟩
    | ok u =>
      dsimp only [BidirectionalSyncEngine.finish_notion_upsert]
      exact upsert_conflict_count _ now pid _ _ none _ nid r (by rw [hdb]; exact h)

/-- The counterpart fetch performs no sync-table write. -/
theorem fetch_existing_todoist_task_db (c : Collab) (sync_state : Option SyncStateRow)
    (s : EngState) :
    (BidirectionalSyncEngine.fetch_existing_todoist_task c sync_state s).2.db = s.db := by
  unfold BidirectionalSyncEngine.fetch_existing_todoist_task
  repeat' split
  all_goals rfl

/-- The page-property write performs no sync-table write. -/
theorem update_page_step_db (c : Collab) (notion_id : String)
    (properties : List (String × BidirectionalFieldMapper.NotionBuiltProp)) (s : EngState) :
    (BidirectionalSyncEngine.update_page_step c notion_id properties s).2.db = s.db := by
  unfold BidirectionalSyncEngine.update_page_step
  repeat' split
  all_goals rfl

/-- The completion-status write performs no sync-table write. -/
theorem completion_status_step_db (c : Collab) (cfg : Configuration) (notion_id : String)
    (todoist_task : TodoistTask) (notion_task : NotionTask) (s : EngState) :
    (BidirectionalSyncEngine.completion_status_step c cfg notion_id todoist_task notion_task
      s).2.db = s.db := by
  unfold BidirectionalSyncEngine.completion_status_step
  dsimp only
  repeat' split
  all_goals rfl

/-- The whole Notion-direction body preserves every existing row's
`conflict_count`: its only table writes are `update_timestamps` and upserts
(directly or through parent resolution), none of which touch the counter. -/
theorem sync_from_notion_body_conflict (c : Collab) (cfg : Configuration)
    (strategy : ConflictResolutionStrategy) (now : Timestamp) (pid : String) (s : EngState)
    (nid : String) (r : SyncStateRow)
    (h : SyncStateRepository.get_by_notion_id s.db nid = some r) :
    ∃ r', SyncStateRepository.get_by_notion_id
        (BidirectionalSyncEngine.sync_from_notion_body c cfg strategy now pid s).2.db nid =
          some r'
      ∧ r'.conflict_count = r.conflict_count := by
  unfold BidirectionalSyncEngine.sync_from_notion_body
  cases hgp : c.get_page pid with
  | error e => exact ⟨r, h, rfl⟩
  | ok page =>
    dsimp only
    rcases hf : BidirectionalSyncEngine.fetch_existing_todoist_task c
        (SyncStateRepository.get_by_notion_id (emit s (Ev.evGetPage pid false)).db pid)
        (emit s (Ev.evGetPage pid false)) with ⟨fres, s1⟩
    have hdb1 : s1.db = s.db := by
      have hd := fetch_existing_todoist_task_db c
        (SyncStateRepository.get_by_notion_id (emit s (Ev.evGetPage pid false)).db pid)
        (emit s (Ev.evGetPage pid false))
      rw [hf] at hd
      exact hd
    have h1 : SyncStateRepository.get_by_notion_id s1.db nid = some r := by
      rw [hdb1]; exact h
    cases fres with
    | error e => exact ⟨r, h1, rfl⟩
    | ok topt =>
      dsimp only
      split
      · exact update_timestamps_conflict_count _ now pid _ none nid r h1
      · cases hdue : BidirectionalSyncEngine.apply_due_date_preference
            (BidirectionalSyncEngine.apply_project_mapping c
              (BidirectionalFieldMapper.map_notion_to_todoist cfg page)) with
        | error e => exact ⟨r, h1, rfl⟩
        | ok f2 =>
          dsimp only
          obtain ⟨r1, hr1, hc1⟩ := resolve_parent_conflict c cfg now page
            ((fget f2 "project_id").map pyStr) s1 nid r h1
          cases hlab : BidirectionalSyncEngine.ensure_from_notion_label c
              (match truthyOptStr (BidirectionalSyncEngine.resolve_parent_task_id c cfg now page
                  ((fget f2 "project_id").map pyStr) s1).1 with
                | some pidv => fset f2 "parent_id" (.vStr pidv)
                | none => f2) with
          | error e => exact ⟨r1, hr1, hc1⟩
          | ok f5 =>
            dsimp only
            cases topt with
            | none =>
              obtain ⟨r2, hr2, hc2⟩ := create_new_task_branch_conflict c now pid
                (notion_task_from_dict page cfg.field_mapping).last_edited_time f5 _ nid r1 hr1
              exact ⟨r2, hr2, by rw [hc2, hc1]⟩
            | some tt =>
              obtain ⟨r2, hr2, hc2⟩ := update_existing_task_branch_conflict c cfg now pid page
                (notion_task_from_dict page cfg.field_mapping).last_edited_time _ tt f5 _ nid
                r1 hr1
              exact ⟨r2, hr2, by rw [hc2, hc1]⟩

/-- The whole Todoist-direction body preserves every existing row's
`conflict_count`. -/
theorem sync_from_todoist_body_conflict (c : Collab) (cfg : Configuration)
    (strategy : ConflictResolutionStrategy) (now : Timestamp) (tid : String) (s : EngState)
    (nid : String) (r : SyncStateRow)
    (h : SyncStateRepository.get_by_notion_id s.db nid = some r) :
    ∃ r', SyncStateRepository.get_by_notion_id
        (BidirectionalSyncEngine.sync_from_todoist_body c cfg strategy now tid s).2.db nid =
          some r'
      ∧ r'.conflict_count = r.conflict_count := by
  unfold BidirectionalSyncEngine.sync_from_todoist_body
  cases hgt : c.get_task tid with
  | error e => exact ⟨r, h, rfl⟩
  | ok opt =>
    dsimp only
    cases opt with
    | none => exact ⟨r, h, rfl⟩
    | some todoist_task =>
      dsimp only
      rcases hn : BidirectionalSyncEngine.get_notion_id_from_todoist_task c tid
          (emit s (Ev.evGetTask tid false)) with ⟨nidOpt, s2⟩
      have hdb2 : s2.db = s.db := by
        have hd := get_notion_id_db c tid (emit s (Ev.evGetTask tid false))
        rw [hn] at hd
        exact hd
      have h2 : SyncStateRepository.get_by_notion_id s2.db nid = some r := by
        rw [hdb2]; exact h
      cases hto : truthyOptStr nidOpt with
      | none => exact ⟨r, h2, rfl⟩
      | some notion_id =>
        dsimp only
        cases hgp : c.get_page notion_id with
        | error e => exact ⟨r, h2, rfl⟩
        | ok notion_page =>
          dsimp only
          split
          · exact update_timestamps_conflict_count _ now notion_id none _ nid r h2
          · cases hm : BidirectionalFieldMapper.map_todoist_to_notion cfg todoist_task with
            | error e => exact ⟨r, h2, rfl⟩
            | ok u =>
              dsimp only
              cases hb : BidirectionalFieldMapper.build_notion_properties cfg todoist_task with
              | error e => exact ⟨r, h2, rfl⟩
              | ok properties =>
                dsimp only
                rcases hup : BidirectionalSyncEngine.update_page_step c notion_id properties
                    (emit s2 (Ev.evGetPage notion_id false)) with ⟨ures, s4⟩
                have hdb4 : s4.db = s.db := by
                  have hd := update_page_step_db c notion_id properties
                    (emit s2 (Ev.evGetPage notion_id false))
                  rw [hup] at hd
                  rw [hd]
                  exact hdb2
                have h4 : SyncStateRepository.get_by_notion_id s4.db nid = some r := by
                  rw [hdb4]; exact h
                cases ures with
                | error e => exact ⟨r, h4, rfl⟩
                | ok u2 =>
                  dsimp only
                  rcases hcs : BidirectionalSyncEngine.completion_status_step c cfg notion_id
                      todoist_task (notion_task_from_dict notion_page cfg.field_mapping) s4
                    with ⟨cres, s5⟩
                  have hdb5 : s5.db = s.db := by
                    have hd := completion_status_step_db c cfg notion_id todoist_task
                      (notion_task_from_dict notion_page cfg.field_mapping) s4
                    rw [hcs] at hd
                    rw [hd]
                    exact hdb4
                  have h5 : SyncStateRepository.get_by_notion_id s5.db nid = some r := by
                    rw [hdb5]; exact h
                  cases cres with
                  | error e => exact ⟨r, h5, rfl⟩
                  | ok u3 =>
                    exact upsert_conflict_count _ now notion_id tid none _ _ nid r h5

/-- If the create branch raises, the sync table is untouched (the upsert is
only reached on success). -/
theorem create_new_task_branch_error_frame (c : Collab) (now : Timestamp) (pid : String)
    (nle : Option Timestamp) (fields : TodoistFields) (s : EngState) (e : PyErr)
    (s1 : EngState)
    (hb : BidirectionalSyncEngine.create_new_task_branch c now pid nle fields s =
      (.error e, s1)) : s1.db = s.db := by
  unfold BidirectionalSyncEngine.create_new_task_branch
    BidirectionalSyncEngine.finish_notion_upsert at hb
  dsimp only at hb
  repeat' split at hb
  all_goals (
    rw [Prod.mk.injEq] at hb
    obtain ⟨hbe, hbs⟩ := hb
    first
      | (subst hbs; rfl)
      | exact absurd hbe (by simp))

/-- If the update branch raises, the sync table is untouched. -/
theorem update_existing_task_branch_error_frame (c : Collab) (cfg : Configuration)
    (now : Timestamp) (pid : String) (page : NotionPage) (nle : Option Timestamp)
    (ptid : Option String) (tt : TodoistTask) (fields : TodoistFields) (s : EngState)
    (e : PyErr) (s1 : EngState)
    (hb : BidirectionalSyncEngine.update_existing_task_branch c cfg now pid page nle ptid tt
      fields s = (.error e, s1)) : s1.db = s.db := by
  unfold BidirectionalSyncEngine.update_existing_task_branch at hb
  cases hic : BidirectionalFieldMapper.is_task_completed cfg page with
  | error e0 =>
    rw [hic] at hb
    dsimp only at hb
    rw [Prod.mk.injEq] at hb
    obtain ⟨hbe, hbs⟩ := hb
    subst hbs
    rfl
  | ok completed =>
    rw [hic] at hb
    dsimp only at hb
    rcases hstep : BidirectionalSyncEngine.completion_or_update_step c completed ptid tt
      fields s with ⟨res, s2⟩
    rw [hstep] at hb
    have hdb : s2.db = s.db := by
      have hd := completion_or_update_step_db c completed ptid tt fields s
      rw [hstep] at hd
      exact hd
    cases res with
    | error e0 =>
      dsimp only at hb
      rw [Prod.mk.injEq] at hb
      obtain ⟨hbe, hbs⟩ := hb
      subst hbs
      exact hdb
    | ok u =>
      dsimp only [BidirectionalSyncEngine.finish_notion_upsert] at hb
      simp at hb

/-- If the Notion-direction body raises, the failing invocation has not
touched the task's own sync-state row — provided the page does not name
itself as its parent-relation target (parent resolution may upsert the
target's row before a later step fails). -/
theorem sync_from_notion_body_error_frame (c : Collab) (cfg : Configuration)
    (strategy : ConflictResolutionStrategy) (now : Timestamp) (pid : String) (s : EngState)
    (e : PyErr) (s1 : EngState)
    (hpar : ∀ page, c.get_page pid = Except.ok page →
      parent_relation_target cfg page ≠ some pid)
    (hb : BidirectionalSyncEngine.sync_from_notion_body c cfg strategy now pid s =
      (.error e, s1)) :
    SyncStateRepository.get_by_notion_id s1.db pid =
      SyncStateRepository.get_by_notion_id s.db pid := by
  unfold BidirectionalSyncEngine.sync_from_notion_body at hb
  cases hgp : c.get_page pid with
  | error e0 =>
    rw [hgp] at hb
    dsimp only at hb
    rw [Prod.mk.injEq] at hb
    obtain ⟨hbe, hbs⟩ := hb
    subst hbs
    rfl
  | ok page =>
    have hp := hpar page hgp
    rw [hgp] at hb
    dsimp only at hb
    rcases hf : BidirectionalSyncEngine.fetch_existing_todoist_task c
        (SyncStateRepository.get_by_notion_id (emit s (Ev.evGetPage pid false)).db pid)
        (emit s (Ev.evGetPage pid false)) with ⟨fres, sf⟩
    rw [hf] at hb
    have hdbf : sf.db = s.db := by
      have hd := fetch_existing_todoist_task_db c
        (SyncStateRepository.get_by_notion_id (emit s (Ev.evGetPage pid false)).db pid)
        (emit s (Ev.evGetPage pid false))
      rw [hf] at hd
      exact hd
    cases fres with
    | error e0 =>
      dsimp only at hb
      rw [Prod.mk.injEq] at hb
      obtain ⟨hbe, hbs⟩ := hb
      subst hbs
      rw [hdbf]
    | ok topt =>
      dsimp only at hb
      split at hb
      · simp at hb
      · cases hdue : BidirectionalSyncEngine.apply_due_date_preference
            (BidirectionalSyncEngine.apply_project_mapping c
              (BidirectionalFieldMapper.map_notion_to_todoist cfg page)) with
        | error e0 =>
          rw [hdue] at hb
          dsimp only at hb
          rw [Prod.mk.injEq] at hb
          obtain ⟨hbe, hbs⟩ := hb
          subst hbs
          rw [hdbf]
        | ok f2 =>
          rw [hdue] at hb
          dsimp only at hb
          have hparent : SyncStateRepository.get_by_notion_id
              (BidirectionalSyncEngine.resolve_parent_task_id c cfg now page
                ((fget f2 "project_id").map pyStr) sf).2.db pid =
              SyncStateRepository.get_by_notion_id s.db pid := by
            rw [resolve_parent_db_ne c cfg now page ((fget f2 "project_id").map pyStr) sf
              pid hp, hdbf]
          cases hlab : BidirectionalSyncEngine.ensure_from_notion_label c
              (match truthyOptStr (BidirectionalSyncEngine.resolve_parent_task_id c cfg now
                  page ((fget f2 "project_id").map pyStr) sf).1 with
                | some pidv => fset f2 "parent_id" (.vStr pidv)
                | none => f2) with
          | error e0 =>
            rw [hlab] at hb
            dsimp only at hb
            rw [Prod.mk.injEq] at hb
            obtain ⟨hbe, hbs⟩ := hb
            subst hbs
            exact hparent
          | ok f5 =>
            rw [hlab] at hb
            dsimp only at hb
            cases topt with
            | none =>
              have hd := create_new_task_branch_error_frame c now pid
                (notion_task_from_dict page cfg.field_mapping).last_edited_time f5 _ e s1 hb
              rw [hd]
              exact hparent
            | some tt =>
              have hd := update_existing_task_branch_error_frame c cfg now pid page
                (notion_task_from_dict page cfg.field_mapping).last_edited_time _ tt f5 _ e
                s1 hb
              rw [hd]
              exact hparent

/-- If the Todoist-direction body raises, the failing invocation has not
modified the sync table at all. -/
theorem sync_from_todoist_body_error_frame (c : Collab) (cfg : Configuration)
    (strategy : ConflictResolutionStrategy) (now : Timestamp) (tid : String) (s : EngState)
    (e : PyErr) (s1 : EngState)
    (hb : BidirectionalSyncEngine.sync_from_todoist_body c cfg strategy now tid s =
      (.error e, s1)) : s1.db = s.db := by
  unfold BidirectionalSyncEngine.sync_from_todoist_body at hb
  cases hgt : c.get_task tid with
  | error e0 =>
    rw [hgt] at hb
    dsimp only at hb
    rw [Prod.mk.injEq] at hb
    obtain ⟨hbe, hbs⟩ := hb
    subst hbs
    rfl
  | ok opt =>
    rw [hgt] at hb
    dsimp only at hb
    cases opt with
    | none =>
      dsimp only at hb
      rw [Prod.mk.injEq] at hb
      obtain ⟨hbe, hbs⟩ := hb
      subst hbs
      rfl
    | some todoist_task =>
      dsimp only at hb
      rcases hn : BidirectionalSyncEngine.get_notion_id_from_todoist_task c tid
          (emit s (Ev.evGetTask tid false)) with ⟨nidOpt, s2⟩
      rw [hn] at hb
      have hdb2 : s2.db = s.db := by
        have hd := get_notion_id_db c tid (emit s (Ev.evGetTask tid false))
        rw [hn] at hd
        exact hd
      cases hto : truthyOptStr nidOpt with
      | none =>
        rw [hto] at hb
        simp at hb
      | some notion_id =>
        rw [hto] at hb
        dsimp only at hb
        cases hgp : c.get_page notion_id with
        | error e0 =>
          rw [hgp] at hb
          dsimp only at hb
          rw [Prod.mk.injEq] at hb
          obtain ⟨hbe, hbs⟩ := hb
          subst hbs
          exact hdb2
        | ok notion_page =>
          rw [hgp] at hb
          dsimp only at hb
          split at hb
          · simp at hb
          · cases hm : BidirectionalFieldMapper.map_todoist_to_notion cfg todoist_task with
            | error e0 =>
              rw [hm] at hb
              dsimp only at hb
              rw [Prod.mk.injEq] at hb
              obtain ⟨hbe, hbs⟩ := hb
              subst hbs
              exact hdb2
            | ok u =>
              rw [hm] at hb
              dsimp only at hb
              cases hbp : BidirectionalFieldMapper.build_notion_properties cfg todoist_task with
              | error e0 =>
                rw [hbp] at hb
                dsimp only at hb
                rw [Prod.mk.injEq] at hb
                obtain ⟨hbe, hbs⟩ := hb
                subst hbs
                exact hdb2
              | ok properties =>
                rw [hbp] at hb
                dsimp only at hb
                rcases hup : BidirectionalSyncEngine.update_page_step c notion_id properties
                    (emit s2 (Ev.evGetPage notion_id false)) with ⟨ures, s4⟩
                rw [hup] at hb
                have hdb4 : s4.db = s.db := by
                  have hd := update_page_step_db c notion_id properties
                    (emit s2 (Ev.evGetPage notion_id false))
                  rw [hup] at hd
                  rw [hd]
                  exact hdb2
                cases ures with
                | error e0 =>
                  dsimp only at hb
                  rw [Prod.mk.injEq] at hb
                  obtain ⟨hbe, hbs⟩ := hb
                  subst hbs
                  exact hdb4
                | ok u2 =>
                  dsimp only at hb
                  rcases hcs : BidirectionalSyncEngine.completion_status_step c cfg notion_id
                      todoist_task (notion_task_from_dict notion_page cfg.field_mapping) s4
                    with ⟨cres, s5⟩
                  rw [hcs] at hb
                  have hdb5 : s5.db = s.db := by
                    have hd := completion_status_step_db c cfg notion_id todoist_task
                      (notion_task_from_dict notion_page cfg.field_mapping) s4
                    rw [hcs] at hd
                    rw [hd]
                    exact hdb4
                  cases cres with
                  | error e0 =>
                    dsimp only at hb
                    rw [Prod.mk.injEq] at hb
                    obtain ⟨hbe, hbs⟩ := hb
                    subst hbs
                    exact hdb5
                  | ok u3 =>
                    dsimp only at hb
                    simp at hb

theorem fget_fset_self (fs : TodoistFields) (k : String) (v : TodoistVal) :
    fget (fset fs k v) k = some v := by
  unfold fset
  split
  case isTrue hc =>
    unfold fcontains fget at *
    induction fs with
    | nil => simp at hc
    | cons p rest ih =>
      by_cases hp : p.1 = k
      · rw [List.map_cons, List.find?_cons_of_pos _ (by simp [hp])]
        simp [hp]
      · rw [List.map_cons, List.find?_cons_of_neg _ (by simp [hp])]
        rw [List.find?_cons_of_neg _ (by simp [hp])] at hc
        exact ih hc
  case isFalse hc =>
    unfold fcontains fget at *
    have hnone : fs.find? (fun p => p.1 = k) = none := by
      cases hf : fs.find? (fun p => p.1 = k) with
      | none => rfl
      | some p => rw [hf] at hc; simp at hc
    rw [List.find?_append, hnone]
    simp [List.find?]

theorem find_map_overwrite_ne (l : List (String × TodoistVal)) (k k' : String)
    (v : TodoistVal) (h : k' ≠ k) :
    (l.map (fun p => if p.1 = k then (p.1, v) else p)).find? (fun p => p.1 = k') =
      l.find? (fun p => p.1 = k') := by
  induction l with
  | nil => rfl
  | cons p rest ih =>
    rw [List.map_cons]
    by_cases hp : p.1 = k'
    · have hpk : ¬p.1 = k := by rw [hp]; exact h
      rw [if_neg hpk, List.find?_cons_of_pos _ (by simp [hp]),
        List.find?_cons_of_pos _ (by simp [hp])]
    · by_cases hpk : p.1 = k
      · rw [if_pos hpk, List.find?_cons_of_neg _ (by simp [hp]),
          List.find?_cons_of_neg _ (by simp [hp])]
        exact ih
      · rw [if_neg hpk, List.find?_cons_of_neg _ (by simp [hp]),
          List.find?_cons_of_neg _ (by simp [hp])]
        exact ih

theorem find_filter_ne (l : List (String × TodoistVal)) (k k' : String) (h : k' ≠ k) :
    (l.filter (fun p => p.1 ≠ k)).find? (fun p => p.1 = k') =
      l.find? (fun p => p.1 = k') := by
  induction l with
  | nil => rfl
  | cons p rest ih =>
    by_cases hp : p.1 = k'
    · have hpk : ¬p.1 = k := by rw [hp]; exact h
      rw [List.filter_cons_of_pos (by simp [hpk]), List.find?_cons_of_pos _ (by simp [hp]),
        List.find?_cons_of_pos _ (by simp [hp])]
    · by_cases hpk : p.1 = k
      · rw [List.filter_cons_of_neg (by simp [hpk]), List.find?_cons_of_neg _ (by simp [hp])]
        exact ih
      · rw [List.filter_cons_of_pos (by simp [hpk]), List.find?_cons_of_neg _ (by simp [hp]),
          List.find?_cons_of_neg _ (by simp [hp])]
        exact ih

theorem fget_fset_ne (fs : TodoistFields) (k k' : String) (v : TodoistVal) (h : k' ≠ k) :
    fget (fset fs k v) k' = fget fs k' := by
  unfold fset
  split
  · unfold fget
    rw [find_map_overwrite_ne fs k k' v h]
  · unfold fget
    rw [List.find?_append]
    cases hf : fs.find? (fun p => p.1 = k') with
    | some p => rfl
    | none =>
      rw [List.find?_cons_of_neg _ (by simp [Ne.symm h])]
      rfl

theorem fget_fremove_ne (fs : TodoistFields) (k k' : String) (h : k' ≠ k) :
    fget (fremove fs k) k' = fget fs k' := by
  unfold fremove fget
  rw [find_filter_ne fs k k' h]

/-- Under `dueOk`, the due-date block cannot raise. -/
theorem apply_due_ok (fs : TodoistFields) (h : dueOk fs) :
    ∃ f2, BidirectionalSyncEngine.apply_due_date_preference fs = .ok f2 := by
  unfold BidirectionalSyncEngine.apply_due_date_preference
  cases hd : fget fs "due_date" with
  | none => exact ⟨fs, rfl⟩
  | some v =>
    cases v with
    | vStr sv =>
      by_cases hT : strContains sv "T" = true
      · simp only [hT, if_true]
        exact ⟨_, rfl⟩
      · have hps := h sv hd (by simpa using hT)
        simp only [(by simpa using hT : strContains sv "T" = false), if_false]
        cases hp : parseYmd sv with
        | none => exact absurd hp hps
        | some d => exact ⟨_, rfl⟩
    | vInt n => exact ⟨_, rfl⟩
    | vList xs => exact ⟨_, rfl⟩
    | vDate d => exact ⟨_, rfl⟩

/-- The due-date block never touches the `labels` entry. -/
theorem apply_due_ok_labels (fs f2 : TodoistFields)
    (h : BidirectionalSyncEngine.apply_due_date_preference fs = .ok f2) :
    fget f2 "labels" = fget fs "labels" := by
  unfold BidirectionalSyncEngine.apply_due_date_preference at h
  have hrm : fget (fremove (fremove fs "due_date") "due_string") "labels" =
      fget fs "labels" := by
    rw [fget_fremove_ne _ _ _ (by decide), fget_fremove_ne _ _ _ (by decide)]
  split at h
  · cases h; rfl
  · split at h
    · split at h
      · cases h
        rw [fget_fset_ne _ _ _ _ (by decide), hrm]
      · split at h
        · cases h
          rw [fget_fset_ne _ _ _ _ (by decide), hrm]
        · cases h
    · cases h
      rw [fget_fset_ne _ _ _ _ (by decide), hrm]
    · cases h; exact hrm

/-- When the `labels` entry is absent or a list, the From-Notion-label block
cannot raise. -/
theorem ensure_label_ok (c : Collab) (fs : TodoistFields)
    (h : ∀ v, fget fs "labels" = some v → ∃ xs, v = TodoistVal.vList xs) :
    ∃ f5, BidirectionalSyncEngine.ensure_from_notion_label c fs = .ok f5 := by
  unfold BidirectionalSyncEngine.ensure_from_notion_label
  have hlist : ∃ xs, fget (if fcontains fs "labels" then fs
      else fset fs "labels" (.vList [])) "labels" = some (TodoistVal.vList xs) := by
    by_cases hc : fcontains fs "labels" = true
    · rw [if_pos hc]
      unfold fcontains at hc
      cases hv : fget fs "labels" with
      | none => rw [hv] at hc; simp at hc
      | some v =>
        obtain ⟨xs, hxs⟩ := h v hv
        exact ⟨xs, by rw [hxs]⟩
    · rw [if_neg hc]
      exact ⟨[], fget_fset_self fs "labels" (.vList [])⟩
  obtain ⟨xs, hxs⟩ := hlist
  cases hfl : truthyOptStr c.from_notion_label with
  | none => exact ⟨_, rfl⟩
  | some lbl =>
    dsimp only
    rw [hxs]
    dsimp only [pyInCheck]
    by_cases hin : xs.contains lbl = true
    · simp only [hin]
      exact ⟨_, rfl⟩
    · simp only [(by simpa using hin : xs.contains lbl = false)]
      exact ⟨_, rfl⟩

/-- A side whose best-known modification instants are all at most the
last-sync instant is judged unchanged. -/
theorem changed_since_false (x : Option Timestamp) (T : Timestamp)
    (h : ∀ t, x = some t → t ≤ T) :
    BidirectionalSyncEngine.changed_since_last_sync x T = false := by
  cases hx : x with
  | none => rfl
  | some t => simp [BidirectionalSyncEngine.changed_since_last_sync, not_lt, h t hx]

/-- Without a parent-task configuration the helper is the identity. -/
theorem resolve_parent_none (c : Collab) (cfg : Configuration) (now : Timestamp)
    (page : NotionPage) (cpid : Option String) (s : EngState)
    (hpt : cfg.parent_task_field = none) :
    BidirectionalSyncEngine.resolve_parent_task_id c cfg now page cpid s = (none, s) := by
  unfold BidirectionalSyncEngine.resolve_parent_task_id
  rw [hpt]

/-- The wrapper passes a normally-returned body result through. -/
theorem sync_task_from_notion_of_ok (c : Collab) (cfg : Configuration)
    (strategy : ConflictResolutionStrategy) (now : Timestamp) (pid : String) (s : EngState)
    (r : Option String) (s1 : EngState)
    (hb : BidirectionalSyncEngine.sync_from_notion_body c cfg strategy now pid s =
      (.ok r, s1)) :
    BidirectionalSyncEngine.sync_task_from_notion c cfg strategy now pid s = (r, s1) := by
  unfold BidirectionalSyncEngine.sync_task_from_notion
  rw [hb]

/-- C2 (counterexample): a task pair already in sync (counterpart and row
exist, both sides completed, nothing changed externally) synced twice in a
row: neither invocation writes to Todoist, yet the second invocation does not
leave the SyncState row unchanged — the unconditional final upsert refreshes
`last_synced_at` from 100 to 200, so the row (and its stored timestamp)
differs after the second invocation, contradicting the claim. -/
theorem c2_counterexample :
    c2_run1.2.trace.filter Ev.isTodoistWrite = []
    ∧ c2_run2.2.trace.filter Ev.isTodoistWrite = []
    ∧ (SyncStateRepository.get_by_notion_id c2_run1.2.db "P2").map
        (fun r => r.last_synced_at) = some 100
    ∧ (SyncStateRepository.get_by_notion_id c2_run2.2.db "P2").map
        (fun r => r.last_synced_at) = some 200
    ∧ SyncStateRepository.get_by_notion_id c2_run2.2.db "P2" ≠
        SyncStateRepository.get_by_notion_id c2_run1.2.db "P2" := by
  refine ⟨?_, ?_, ?_, ?_, ?_⟩ <;> decide

/-- C2 (amended): the second-invocation behaviour of `sync_task_from_notion`
for a pair with an existing counterpart and row whose external snapshots are
unchanged since the last sync (no parent-task configuration, well-formed
mapped fields).  No write to the Todoist side is performed, but the row is
not left unchanged: when both sides are already completed the final
unconditional upsert rewrites the row — in particular refreshing
`last_synced_at` to the invocation time — and when both sides are open the
field-update pass aborts on the `task.is_recurring` AttributeError, caught at
the top, returning `None` with the row untouched. -/
theorem c2_second_sync_characterized (c : Collab) (cfg : Configuration)
    (strategy : ConflictResolutionStrategy) (now : Timestamp) (pid : String)
    (s : EngState) (st : SyncStateRow) (page : NotionPage) (tt : TodoistTask)
    (hpt : cfg.parent_task_field = none)
    (hrow : SyncStateRepository.get_by_notion_id s.db pid = some st)
    (hpage : c.get_page pid = .ok page)
    (htask : c.get_task st.todoist_id = .ok (some tt))
    (hid : tt.id = st.todoist_id)
    (hne : ∀ t, page.last_edited_time = some t → t ≤ st.last_synced_at)
    (hnc : ∀ t, page.created_time = some t → t ≤ st.last_synced_at)
    (hdue : dueOk (BidirectionalSyncEngine.apply_project_mapping c
      (BidirectionalFieldMapper.map_notion_to_todoist cfg page)))
    (hlab : labelsOk (BidirectionalSyncEngine.apply_project_mapping c
      (BidirectionalFieldMapper.map_notion_to_todoist cfg page))) :
    (BidirectionalFieldMapper.is_task_completed cfg page = .ok true →
      tt.is_completed = true →
      (BidirectionalSyncEngine.sync_task_from_notion c cfg strategy now pid s).1 =
          some st.todoist_id
      ∧ (BidirectionalSyncEngine.sync_task_from_notion c cfg strategy now pid
          s).2.trace.filter Ev.isTodoistWrite = s.trace.filter Ev.isTodoistWrite
      ∧ (BidirectionalSyncEngine.sync_task_from_notion c cfg strategy now pid s).2.db =
          s.db.map (fun r =>
            if r.notion_id = pid then
              { r with
                todoist_id := st.todoist_id
                notion_last_edited := page.last_edited_time.map (fun t => toString t)
                todoist_last_edited := none
                last_synced_at := now
                last_sync_direction := some "notion_to_todoist" }
            else r))
    ∧ (BidirectionalFieldMapper.is_task_completed cfg page = .ok false →
      tt.is_completed = false →
      (BidirectionalSyncEngine.sync_task_from_notion c cfg strategy now pid s).1 = none
      ∧ (BidirectionalSyncEngine.sync_task_from_notion c cfg strategy now pid s).2.db = s.db
      ∧ (BidirectionalSyncEngine.sync_task_from_notion c cfg strategy now pid
          s).2.trace.filter Ev.isTodoistWrite = s.trace.filter Ev.isTodoistWrite) := by
  obtain ⟨f2, hdue2⟩ := apply_due_ok _ hdue
  have hlab2 : ∀ v, fget f2 "labels" = some v → ∃ xs, v = TodoistVal.vList xs := by
    intro v hv
    exact hlab v (by rw [← apply_due_ok_labels _ _ hdue2]; exact hv)
  obtain ⟨f5, hens⟩ := ensure_label_ok c f2 hlab2
  have horelse : ∀ t,
      ((notion_task_from_dict page cfg.field_mapping).last_edited_time.orElse
        (fun _ => (notion_task_from_dict page cfg.field_mapping).created_time)) = some t →
      t ≤ st.last_synced_at := by
    intro t ht
    rw [show (notion_task_from_dict page cfg.field_mapping).last_edited_time =
        page.last_edited_time from rfl,
      show (notion_task_from_dict page cfg.field_mapping).created_time =
        page.created_time from rfl] at ht
    cases hpe : page.last_edited_time with
    | some x =>
      rw [hpe] at ht
      have hx : some x = some t := ht
      injection hx with hx'
      subst hx'
      exact hne x hpe
    | none =>
      rw [hpe] at ht
      have hx : page.created_time = some t := ht
      exact hnc t hx
  have hskip : BidirectionalSyncEngine.conflict_skip_from_notion strategy
      (notion_task_from_dict page cfg.field_mapping) (some tt) (some st) = false := by
    have hhc : BidirectionalSyncEngine.has_conflict
        (notion_task_from_dict page cfg.field_mapping) tt (some st) = false := by
      unfold BidirectionalSyncEngine.has_conflict
      dsimp only
      rw [changed_since_false _ _ horelse, Bool.false_and]
    unfold BidirectionalSyncEngine.conflict_skip_from_notion
    dsimp only
    rw [hhc]
    rfl
  have hfetch : BidirectionalSyncEngine.fetch_existing_todoist_task c (some st)
      (emit s (.evGetPage pid false)) =
      (.ok (some tt),
        emit (emit s (.evGetPage pid false)) (.evGetTask st.todoist_id false)) := by
    unfold BidirectionalSyncEngine.fetch_existing_todoist_task
    dsimp only
    rw [htask]
  have hbody : BidirectionalSyncEngine.sync_from_notion_body c cfg strategy now pid s =
      BidirectionalSyncEngine.update_existing_task_branch c cfg now pid page
        (notion_task_from_dict page cfg.field_mapping).last_edited_time none tt f5
        (emit (emit s (.evGetPage pid false)) (.evGetTask st.todoist_id false)) := by
    unfold BidirectionalSyncEngine.sync_from_notion_body
    rw [hpage]
    dsimp only
    rw [show SyncStateRepository.get_by_notion_id (emit s (.evGetPage pid false)).db pid =
        some st from hrow]
    rw [hfetch]
    dsimp only
    rw [hskip]
    rw [if_neg (by decide : ¬(false = true))]
    rw [hdue2]
    dsimp only
    rw [resolve_parent_none c cfg now page _ _ hpt]
    dsimp only [truthyOptStr]
    rw [hens]
  refine ⟨?_, ?_⟩
  · intro hcomp hta
    have hstep : BidirectionalSyncEngine.completion_or_update_step c true none tt f5
        (emit (emit s (.evGetPage pid false)) (.evGetTask st.todoist_id false)) =
        (.ok (),
          emit (emit s (.evGetPage pid false)) (.evGetTask st.todoist_id false)) := by
      unfold BidirectionalSyncEngine.completion_or_update_step
      rw [if_pos rfl, hta]
      rw [if_neg (by decide : ¬((!true) = true))]
    have hbr : BidirectionalSyncEngine.update_existing_task_branch c cfg now pid page
        (notion_task_from_dict page cfg.field_mapping).last_edited_time none tt f5
        (emit (emit s (.evGetPage pid false)) (.evGetTask st.todoist_id false)) =
        (.ok (some tt.id),
          { emit (emit s (.evGetPage pid false)) (.evGetTask st.todoist_id false) with
            db := SyncStateRepository.upsert
              (emit (emit s (.evGetPage pid false))
                (.evGetTask st.todoist_id false)).db now pid tt.id
              (((notion_task_from_dict page cfg.field_mapping).last_edited_time).map
                (fun t => toString t)) none "notion_to_todoist" }) := by
      unfold BidirectionalSyncEngine.update_existing_task_branch
      rw [hcomp]
      dsimp only
      rw [hstep]
      dsimp only
      unfold BidirectionalSyncEngine.finish_notion_upsert
      rfl
    have hok := sync_task_from_notion_of_ok c cfg strategy now pid s _ _ (hbody.trans hbr)
    refine ⟨?_, ?_, ?_⟩
    · rw [hok, ← hid]
    · rw [hok]
      dsimp only [emit]
      rw [List.filter_append, List.filter_append]
      simp [Ev.isTodoistWrite]
    · rw [hok]
      dsimp only [emit]
      unfold SyncStateRepository.upsert
      rw [if_pos (by
        unfold SyncStateRepository.get_by_notion_id at hrow
        rw [hrow]
        rfl)]
      rw [hid]
      rw [show (notion_task_from_dict page cfg.field_mapping).last_edited_time =
        page.last_edited_time from rfl]
  · intro hcomp hta
    have hstep : BidirectionalSyncEngine.completion_or_update_step c false none tt f5
        (emit (emit s (.evGetPage pid false)) (.evGetTask st.todoist_id false)) =
        (.error .attributeError,
          emit (emit s (.evGetPage pid false)) (.evGetTask st.todoist_id false)) := by
      unfold BidirectionalSyncEngine.completion_or_update_step
      rw [if_neg (by decide : ¬(false = true)), hta,
        if_neg (by decide : ¬(false = true))]
      rw [prepare_update_fields_raises]
    have hbr : BidirectionalSyncEngine.update_existing_task_branch c cfg now pid page
        (notion_task_from_dict page cfg.field_mapping).last_edited_time none tt f5
        (emit (emit s (.evGetPage pid false)) (.evGetTask st.todoist_id false)) =
        (.error .attributeError,
          emit (emit s (.evGetPage pid false)) (.evGetTask st.todoist_id false)) := by
      unfold BidirectionalSyncEngine.update_existing_task_branch
      rw [hcomp]
      dsimp only
      rw [hstep]
    have hok := sync_task_from_notion_of_error c cfg strategy now pid s _ _
      (hbody.trans hbr)
    refine ⟨?_, ?_, ?_⟩
    · rw [hok]
    · rw [hok]
      rfl
    · rw [hok]
      dsimp only [emit]
      rw [List.filter_append, List.filter_append]
      simp [Ev.isTodoistWrite]

/-- C2 (witness): the amended theorem applied to the concrete in-sync pair of
the counterexample fixture, both sides completed, second invocation at
now = 200. -/
theorem c2_witness :
    BidirectionalFieldMapper.is_task_completed cfgTitleStatus c2_page = .ok true
    ∧ c2_task.is_completed = true
    ∧ ((BidirectionalSyncEngine.sync_task_from_notion c2_collab cfgTitleStatus
        .last_modified_wins 200 "P2" { db := [c2_row], trace := [] }).1 =
          some c2_row.todoist_id
      ∧ (BidirectionalSyncEngine.sync_task_from_notion c2_collab cfgTitleStatus
          .last_modified_wins 200 "P2"
          { db := [c2_row], trace := [] }).2.trace.filter Ev.isTodoistWrite =
        (EngState.mk [c2_row] []).trace.filter Ev.isTodoistWrite
      ∧ (BidirectionalSyncEngine.sync_task_from_notion c2_collab cfgTitleStatus
          .last_modified_wins 200 "P2" { db := [c2_row], trace := [] }).2.db =
        [c2_row].map (fun r =>
          if r.notion_id = "P2" then
            { r with
              todoist_id := c2_row.todoist_id
              notion_last_edited := c2_page.last_edited_time.map (fun t => toString t)
              todoist_last_edited := none
              last_synced_at := 200
              last_sync_direction := some "notion_to_todoist" }
          else r)) :=
  ⟨by decide, by decide,
    (c2_second_sync_characterized c2_collab cfgTitleStatus .last_modified_wins 200 "P2"
      { db := [c2_row], trace := [] } c2_row c2_page c2_task
      (by decide) (by decide) (by decide) (by decide) (by decide)
      (by intro t ht; injection ht with ht'; subst ht'; decide)
      (by intro t ht; injection ht with ht'; subst ht'; decide)
      (by
        intro sv hsv hT
        rw [(by decide : fget (BidirectionalSyncEngine.apply_project_mapping c2_collab
          (BidirectionalFieldMapper.map_notion_to_todoist cfgTitleStatus c2_page))
          "due_date" = none)] at hsv
        exact nomatch hsv)
      (by
        intro v hv
        rw [(by decide : fget (BidirectionalSyncEngine.apply_project_mapping c2_collab
          (BidirectionalFieldMapper.map_notion_to_todoist cfgTitleStatus c2_page))
          "labels" = none)] at hv
        exact nomatch hv)).1 (by decide) (by decide)⟩

/-- C4 (counterexample): in the claim's own scenario — both sides changed
after `last_synced_at` (Notion at 300, Todoist at 200, last sync at 50),
strategy `last_modified_wins`, Notion's timestamp later — the reconciliation
applies Notion's write to Todoist (the completion transition), but the row's
`conflict_count` stays exactly as it was (0) instead of incrementing by one:
the repository's `increment_conflict_count` has no caller. -/
theorem c4_counterexample :
    BidirectionalSyncEngine.has_conflict
        (notion_task_from_dict c4_page cfgTitleStatus.field_mapping) c4_task (some c2_row) = true
    ∧ (ConflictResolver.resolve .last_modified_wins
        (notion_task_from_dict c4_page cfgTitleStatus.field_mapping) c4_task (some c2_row)).1 = true
    ∧ c4_run.2.trace.filter Ev.isTodoistWrite = [.evCompleteTask "T2" false]
    ∧ (SyncStateRepository.get_by_notion_id c4_run.2.db "P2").map
        (fun r => r.conflict_count) = some c2_row.conflict_count
    ∧ ¬((SyncStateRepository.get_by_notion_id c4_run.2.db "P2").map
        (fun r => r.conflict_count) = some (c2_row.conflict_count + 1)) := by
  refine ⟨?_, ?_, ?_, ?_, ?_⟩ <;> decide

/-- C4 (amended): `conflict_count` never changes at all — for every
reconciliation in either direction and every existing row, the row's
`conflict_count` after the invocation equals its value before
(`increment_conflict_count` exists in the repository but has no caller); and
in the concrete both-sides-changed scenario with `last_modified_wins` and
Notion later, Notion's write (the completion transition) is applied to
Todoist while the winning pair's `conflict_count` stays `0` instead of
incrementing. -/
theorem c4_conflict_count_frozen :
    (∀ (c : Collab) (cfg : Configuration) (strategy : ConflictResolutionStrategy)
      (now : Timestamp) (pid : String) (s : EngState) (nid : String) (r : SyncStateRow),
      SyncStateRepository.get_by_notion_id s.db nid = some r →
      ∃ r', SyncStateRepository.get_by_notion_id
          (BidirectionalSyncEngine.sync_task_from_notion c cfg strategy now pid s).2.db nid =
            some r'
        ∧ r'.conflict_count = r.conflict_count)
    ∧ (∀ (c : Collab) (cfg : Configuration) (strategy : ConflictResolutionStrategy)
      (now : Timestamp) (tid : String) (s : EngState) (nid : String) (r : SyncStateRow),
      SyncStateRepository.get_by_notion_id s.db nid = some r →
      ∃ r', SyncStateRepository.get_by_notion_id
          (BidirectionalSyncEngine.sync_task_from_todoist c cfg strategy now tid s).2.db nid =
            some r'
        ∧ r'.conflict_count = r.conflict_count)
    ∧ ((ConflictResolver.resolve .last_modified_wins
          (notion_task_from_dict c4_page cfgTitleStatus.field_mapping) c4_task
          (some c2_row)).1 = true
      ∧ c4_run.2.trace.filter Ev.isTodoistWrite = [.evCompleteTask "T2" false]
      ∧ (SyncStateRepository.get_by_notion_id c4_run.2.db "P2").map
          (fun r => r.conflict_count) = some c2_row.conflict_count) := by
  refine ⟨?_, ?_, by decide, by decide, by decide⟩
  · intro c cfg strategy now pid s nid r h
    rw [sync_task_from_notion_state]
    exact sync_from_notion_body_conflict c cfg strategy now pid s nid r h
  · intro c cfg strategy now tid s nid r h
    rw [sync_task_from_todoist_state]
    exact sync_from_todoist_body_conflict c cfg strategy now tid s nid r h

/-- C4 witness. -/
theorem c4_witness :
    ∃ r', SyncStateRepository.get_by_notion_id
        (BidirectionalSyncEngine.sync_task_from_notion c4_collab cfgTitleStatus
          .last_modified_wins 400 "P2" { db := [c2_row], trace := [] }).2.db "P2" = some r'
      ∧ r'.conflict_count = c2_row.conflict_count :=
  c4_conflict_count_frozen.1 c4_collab cfgTitleStatus .last_modified_wins 400 "P2"
    { db := [c2_row], trace := [] } "P2" c2_row (by decide)

/-- C1 (counterexample): a collaborator exception inside the parent-resolution
helper (`query_child_tasks` raises while resolving page P1's parent PP) is
caught by the helper's own handler, not converted into a `None` return: the
invocation continues, creates the task, returns `some "TNEW"` and upserts the
task's SyncState row — contradicting the claim that any collaborator
exception inside the invocation yields a `None` return with the row
unmodified. -/
theorem c1_counterexample :
    c1_collab.query_child_tasks "PP" true = Except.error PyErr.apiError
    ∧ (BidirectionalSyncEngine.sync_task_from_notion c1_collab c1_cfg .last_modified_wins 100
        "P1" { db := [], trace := [] }).1 = some "TNEW"
    ∧ (BidirectionalSyncEngine.sync_task_from_notion c1_collab c1_cfg .last_modified_wins 100
        "P1" { db := [], trace := [] }).2.trace.filter
          (fun ev => match ev with
            | .evQueryChildTasks _ _ raised => raised
            | _ => false) = [.evQueryChildTasks "PP" true true]
    ∧ SyncStateRepository.get_by_notion_id
        (BidirectionalSyncEngine.sync_task_from_notion c1_collab c1_cfg .last_modified_wins 100
          "P1" { db := [], trace := [] }).2.db "P1" ≠ none := by
  refine ⟨?_, ?_, ?_, ?_⟩ <;> decide

/-- C1 (amended): an exception that escapes the invocation body — every
collaborator exception except those caught by the inner handlers of the
comment-lookup and parent-resolution helpers — never propagates to the
caller: the top-level handler converts it into a `None` return, and the
failing invocation leaves the task's own SyncState row unmodified (for the
Notion direction, provided the task does not name itself as its own parent
target; for the Todoist direction the whole table is untouched). -/
theorem c1_failure_semantics :
    (∀ (c : Collab) (cfg : Configuration) (strategy : ConflictResolutionStrategy)
      (now : Timestamp) (pid : String) (s : EngState) (e : PyErr) (s1 : EngState),
      (∀ page, c.get_page pid = Except.ok page →
        parent_relation_target cfg page ≠ some pid) →
      BidirectionalSyncEngine.sync_from_notion_body c cfg strategy now pid s =
        (.error e, s1) →
      BidirectionalSyncEngine.sync_task_from_notion c cfg strategy now pid s = (none, s1)
      ∧ SyncStateRepository.get_by_notion_id s1.db pid =
          SyncStateRepository.get_by_notion_id s.db pid)
    ∧ (∀ (c : Collab) (cfg : Configuration) (strategy : ConflictResolutionStrategy)
      (now : Timestamp) (tid : String) (s : EngState) (e : PyErr) (s1 : EngState),
      BidirectionalSyncEngine.sync_from_todoist_body c cfg strategy now tid s =
        (.error e, s1) →
      BidirectionalSyncEngine.sync_task_from_todoist c cfg strategy now tid s = (none, s1)
      ∧ s1.db = s.db) := by
  constructor
  · intro c cfg strategy now pid s e s1 hpar hb
    exact ⟨sync_task_from_notion_of_error c cfg strategy now pid s e s1 hb,
      sync_from_notion_body_error_frame c cfg strategy now pid s e s1 hpar hb⟩
  · intro c cfg strategy now tid s e s1 hb
    exact ⟨sync_task_from_todoist_of_error c cfg strategy now tid s e s1 hb,
      sync_from_todoist_body_error_frame c cfg strategy now tid s e s1 hb⟩

/-- C1 witness. -/
theorem c1_witness :
    BidirectionalSyncEngine.sync_task_from_notion collabBase cfgTitleStatus
        .last_modified_wins 0 "PX" { db := [c2_row], trace := [] } =
      (none, { db := [c2_row], trace := [Ev.evGetPage "PX" true] })
    ∧ SyncStateRepository.get_by_notion_id
        (EngState.mk [c2_row] [Ev.evGetPage "PX" true]).db "PX" =
      SyncStateRepository.get_by_notion_id (EngState.mk [c2_row] []).db "PX" :=
  ⟨(c1_failure_semantics.1 collabBase cfgTitleStatus .last_modified_wins 0 "PX"
      { db := [c2_row], trace := [] } PyErr.apiError
      { db := [c2_row], trace := [Ev.evGetPage "PX" true] }
      (fun page hpage => nomatch hpage) (by decide)).1,
    (c1_failure_semantics.1 collabBase cfgTitleStatus .last_modified_wins 0 "PX"
      { db := [c2_row], trace := [] } PyErr.apiError
      { db := [c2_row], trace := [Ev.evGetPage "PX" true] }
      (fun page hpage => nomatch hpage) (by decide)).2⟩

/-- C9: while `sync_deletions` is false, a deletion event (`item:deleted` from
Todoist, `page.deleted` from Notion) issues no `delete_task` and no
`archive_page`, and leaves the sync-state table — in particular the affected
row — unchanged.  (The Todoist-side handler still performs its comment-lookup
read; the Notion-side handler leaves the state entirely untouched.) -/
theorem c9_deletion_gating :
    (∀ (c : Collab) (cfg : Configuration) (strategy : ConflictResolutionStrategy)
      (now : Timestamp) (tid : Option String) (s : EngState),
      cfg.sync_deletions = false →
      (SyncOrchestrator.process_todoist_event c cfg strategy now "item:deleted" tid s).db = s.db
      ∧ (SyncOrchestrator.process_todoist_event c cfg strategy now
          "item:deleted" tid s).trace.filter Ev.isDeletionWrite =
            s.trace.filter Ev.isDeletionWrite)
    ∧ (∀ (c : Collab) (cfg : Configuration) (strategy : ConflictResolutionStrategy)
      (now : Timestamp) (pid : Option String) (s : EngState),
      cfg.sync_deletions = false →
      SyncOrchestrator.process_notion_event c cfg strategy now "page.deleted" pid s = s) := by
  constructor
  · intro c cfg strategy now tid s hsd
    cases ht : truthyOptStr tid with
    | none => simp [SyncOrchestrator.process_todoist_event, ht]
    | some task_id =>
      have hframe := get_notion_id_frame c task_id s Ev.isDeletionWrite (fun b => rfl)
      simp only [SyncOrchestrator.process_todoist_event, ht]
      cases hr : truthyOptStr
          (BidirectionalSyncEngine.get_notion_id_from_todoist_task c task_id s).1 with
      | none => simpa [hr] using hframe
      | some nid => simpa [hr, hsd] using hframe
  · intro c cfg strategy now pid s hsd
    cases hp : truthyOptStr pid with
    | none => simp [SyncOrchestrator.process_notion_event, hp]
    | some page_id =>
      simp only [SyncOrchestrator.process_notion_event, hp]
      cases hg : SyncStateRepository.get_by_notion_id s.db page_id with
      | none => simp [hg]
      | some st => simp [hg, hsd]

/-- C9 witness. -/
theorem c9_witness :
    (SyncOrchestrator.process_todoist_event collabBase cfgTitleStatus .last_modified_wins 0
      "item:deleted" (some "T10") { db := [c10_row], trace := [] }).db = [c10_row]
    ∧ SyncOrchestrator.process_notion_event collabBase cfgTitleStatus .last_modified_wins 0
      "page.deleted" (some "N10") { db := [c10_row], trace := [] } =
        { db := [c10_row], trace := [] } :=
  ⟨(c9_deletion_gating.1 collabBase cfgTitleStatus .last_modified_wins 0 (some "T10")
      { db := [c10_row], trace := [] } rfl).1,
    c9_deletion_gating.2 collabBase cfgTitleStatus .last_modified_wins 0 (some "N10")
      { db := [c10_row], trace := [] } rfl⟩

/-- C10 witness. -/
theorem c10_witness :
    SyncStateRepository.update_timestamps [c10_row] 9 "N10" (some "8") none =
      [{ c10_row with notion_last_edited := some "8", last_synced_at := 9 }] := by
  rw [c10_update_timestamps.1 [c10_row] 9 "N10" "8" rfl]
  rfl

end NotionTodoistSync
